import Mathlib

/-!
Verification development for the PaperBLAST MCP server
(`examples/skills/02-paperblast/scripts/paperblast_mcp.py` together with its
output models in `models.py`).

The HTML documents handled by the server are modelled as a small tree type
`Node`; BeautifulSoup's traversal primitives (`find_all`, `find`,
`next_sibling` walks, `get_text`, `find_parent`, `find_next`) are implemented
over that tree, and each parser / helper of `paperblast_mcp.py` is translated
into an executable Lean definition over it.  Python regular expressions are
translated into explicit character-list scanners with the same
leftmost-match semantics; each scanner's doc comment names the regex it
implements.  Unicode-only divergences (Python's `str.lower`, `\s` and `\w`
also cover non-ASCII characters; all markers matched here are ASCII) are
noted where they occur.
-/

/-- A parsed HTML node: either a text node (BeautifulSoup `NavigableString`)
or an element with a tag name, attributes and children (`Tag`). -/
inductive Node where
  | text (s : String)
  | elem (tag : String) (attrs : List (String × String)) (children : List Node)
deriving Repr

/-- A node together with its position context inside a fixed tree: the stack
of ancestor elements (nearest first) and the list of following siblings.
This is how the sibling walks and `find_parent` of the Python code are
modelled without mutating the tree. -/
structure Ctx where
  anc : List Node
  foll : List Node
  node : Node
deriving Repr

mutual
/-- Pre-order (document-order) flattening of a node, carrying ancestor stack
and following siblings; the node itself comes first, then its descendants. -/
def flatCtx (anc foll : List Node) : Node → List Ctx
  | .text s => [⟨anc, foll, .text s⟩]
  | .elem t a cs => ⟨anc, foll, .elem t a cs⟩ :: flatCtxList (Node.elem t a cs :: anc) cs
/-- Pre-order flattening of a sibling list (each node's following siblings are
the rest of the list). -/
def flatCtxList (anc : List Node) : List Node → List Ctx
  | [] => []
  | c :: cs => flatCtx anc cs c ++ flatCtxList anc cs
end

/-- All descendants of a node (excluding the node itself) in document order:
the node set traversed by BeautifulSoup's `find_all` / `find` on a tag.
The ancestor stacks are rooted at the given node. -/
def descCtx : Node → List Ctx
  | .text _ => []
  | .elem t a cs => flatCtxList [Node.elem t a cs] cs

/-- First attribute value for a key (`Tag.get` with no default). -/
def attrOf : Node → String → Option String
  | .text _, _ => none
  | .elem _ attrs _, k => (attrs.find? (fun p => p.1 = k)).map (fun p => p.2)

/-- `Tag.get(key, "")`. -/
def attrD (n : Node) (k : String) : String := (attrOf n k).getD ""

/-- Python truthiness of `tag.get(key)`: attribute present with a non-empty
value. -/
def attrTruthy (n : Node) (k : String) : Bool :=
  match attrOf n k with
  | some v => v ≠ ""
  | none => false

/-- Does the node have the given element tag name? -/
def tagIs : Node → String → Bool
  | .elem t _ _, name => t = name
  | .text _, _ => false

/-- `find_all` restricted to a node predicate, returning contexts. -/
def findAllCtx (n : Node) (p : Node → Bool) : List Ctx :=
  (descCtx n).filter (fun c => p c.node)

/-- `find_all` returning the matching nodes in document order. -/
def findAllNodes (n : Node) (p : Node → Bool) : List Node :=
  (findAllCtx n p).map (fun c => c.node)

/-- `find`: first matching descendant, if any. -/
def findFirst (n : Node) (p : Node → Bool) : Option Node :=
  (findAllNodes n p).head?

/-- The strings of all text-node descendants (including the node itself when
it is a text node), in document order: BeautifulSoup's `.strings`. -/
def nodeTexts (n : Node) : List String :=
  (match n with | .text s => [s] | .elem _ _ _ => []) ++
    (descCtx n).filterMap (fun c => match c.node with | .text s => some s | _ => none)

/-- BeautifulSoup `Tag.string`: the single text child, recursing through a
single element child; `None` with zero or several children. -/
def nodeString : Node → Option String
  | .text s => some s
  | .elem _ _ [c] => nodeString c
  | .elem _ _ _ => none

/- ----------------------------------------------------------------------
Python string / regex primitives, over `List Char`.
---------------------------------------------------------------------- -/

/-- Python regex `\s` and `str.strip` whitespace, ASCII range
(space, tab, newline, carriage return, vertical tab, form feed).
Python also strips non-ASCII Unicode whitespace; no such character occurs
in the markers handled here. -/
def pyWs (c : Char) : Bool :=
  c = ' ' || c = Char.ofNat 9 || c = Char.ofNat 10 || c = Char.ofNat 13 ||
    c = Char.ofNat 11 || c = Char.ofNat 12

/-- `str.strip()` on a character list. -/
def pyStripList (cs : List Char) : List Char :=
  ((cs.dropWhile pyWs).reverse.dropWhile pyWs).reverse

/-- `str.strip()`. -/
def pyStrip (s : String) : String := String.mk (pyStripList s.data)

/-- `re.sub(r"\s+", " ", s)`: each maximal whitespace run becomes one space.
The flag tracks whether the previous character was whitespace. -/
def collapseWsAux : Bool → List Char → List Char
  | _, [] => []
  | inWs, c :: cs =>
    if pyWs c then
      if inWs then collapseWsAux true cs else ' ' :: collapseWsAux true cs
    else c :: collapseWsAux false cs

/-- `re.sub(r"\s+", " ", s)`. -/
def collapseWs (s : String) : String := String.mk (collapseWsAux false s.data)

/-- Is `pat` a prefix of `cs`? -/
def isPrefixCL : List Char → List Char → Bool
  | [], _ => true
  | _ :: _, [] => false
  | p :: ps, c :: cs => p = c && isPrefixCL ps cs

/-- Drop a literal prefix, returning the rest on success. -/
def dropPrefixCL : List Char → List Char → Option (List Char)
  | [], cs => some cs
  | _ :: _, [] => none
  | p :: ps, c :: cs => if p = c then dropPrefixCL ps cs else none

/-- Python `pat in s` on character lists (substring containment). -/
def containsSubCL (pat : List Char) : List Char → Bool
  | [] => isPrefixCL pat []
  | c :: cs => isPrefixCL pat (c :: cs) || containsSubCL pat cs

/-- Python `pat in s` (substring containment). -/
def strContainsSub (s pat : String) : Bool := containsSubCL pat.data s.data

/-- Maximal leading run of decimal digits (Python `\d+`, ASCII; Python's `\d`
also covers Unicode digits, which do not occur in the pages modelled). -/
def spanDigits (cs : List Char) : List Char × List Char :=
  (cs.takeWhile Char.isDigit, cs.dropWhile Char.isDigit)

/-- Python `int()` of a digit run. -/
def digitsVal (cs : List Char) : Nat := cs.foldl (fun n c => 10 * n + (c.toNat - 48)) 0

/-- Python regex `\w` (ASCII part; the neighbouring characters checked for
word boundaries in these pages are ASCII). -/
def isWordCh (c : Char) : Bool := c.isAlphanum || c = '_'

/-- Python `str.lower()`, ASCII range (`Char.toLower` lowercases only ASCII;
the lowered strings are only compared against ASCII markers). -/
def pyLower (s : String) : String := String.mk (s.data.map Char.toLower)

/-- `\s+` then the rest: require at least one whitespace character and skip
the whole run (greedy, and the tokens that follow never start with
whitespace, so no backtracking is observable). -/
def ws1 : List Char → Option (List Char)
  | [] => none
  | c :: rest => if pyWs c then some (rest.dropWhile pyWs) else none

/-- Python `s.split(sep)` for a non-empty separator, non-overlapping
left-to-right scan.  `skip` counts separator characters still being
consumed, `cur` accumulates the current segment reversed. -/
def pySplitAux (sep : List Char) (skip : Nat) (cur : List Char) : List Char → List (List Char)
  | [] => [cur.reverse]
  | c :: cs =>
    match skip with
    | k + 1 => pySplitAux sep k cur cs
    | 0 =>
      if isPrefixCL sep (c :: cs) then
        cur.reverse :: pySplitAux sep (sep.length - 1) [] cs
      else pySplitAux sep 0 (c :: cur) cs

/-- Python `s.split(sep)` (for the non-empty separators used in the code). -/
def pySplit (sep s : String) : List String :=
  (pySplitAux sep.data 0 [] s.data).map String.mk

/-- Python `s.split(sep)[-1]`. -/
def splitLast (sep s : String) : String := (pySplit sep s).getLastD ""

/- ----------------------------------------------------------------------
Specific regular expressions of paperblast_mcp.py.
---------------------------------------------------------------------- -/

/-- One attempt of `re.compile(r"margin-top:\s*1em")` at the current
position. -/
def marginTopAt (cs : List Char) : Bool :=
  match dropPrefixCL "margin-top:".data cs with
  | some rest => isPrefixCL "1em".data (rest.dropWhile pyWs)
  | none => false

/-- `re.search(r"margin-top:\s*1em", s)` as a Boolean (leftmost scan). -/
def reMarginTop : List Char → Bool
  | [] => false
  | c :: cs => marginTopAt (c :: cs) || reMarginTop cs

/-- An apostrophe or a double quote (the regex alternation next). -/
def isQuoteCh (c : Char) : Bool := c = Char.ofNat 39 || c = Char.ofNat 34

/-- Helper for `lazyDotThenQuote`: accumulate (reversed) until a quote. -/
def lazyDotThenQuoteGo (acc : List Char) : List Char → Option (List Char)
  | [] => none
  | c :: cs =>
    if isQuoteCh c then some acc.reverse
    else if c = Char.ofNat 10 then none
    else lazyDotThenQuoteGo (c :: acc) cs

/-- The `(.+?)(?:'|\")` tail of the curated-id regex: lazily take at least one
non-newline character (`.` does not match a newline) up to the first quote
character at position ≥ 1; the first character may itself be a quote. -/
def lazyDotThenQuote (cs : List Char) : Option (List Char) :=
  match cs with
  | [] => none
  | c0 :: rest =>
    if c0 = Char.ofNat 10 then none else lazyDotThenQuoteGo [c0] rest

/-- `re.search(r"curated::(.+?)(?:'|\")", s)`: group 1 at the leftmost
matching position. -/
def curatedIdSearch : List Char → Option String
  | [] => none
  | c :: cs =>
    match dropPrefixCL "curated::".data (c :: cs) with
    | some rest =>
      match lazyDotThenQuote rest with
      | some g => some (String.mk g)
      | none => curatedIdSearch cs
    | none => curatedIdSearch cs

/-- One attempt of `re.search(r"Found\s+(\d+)\s+similar\s+proteins?", s)`:
group 1 as a number.  (`s?` is optional and never inspected.) -/
def foundCountAt (cs : List Char) : Option Nat :=
  match dropPrefixCL "Found".data cs with
  | none => none
  | some r1 =>
    match ws1 r1 with
    | none => none
    | some r2 =>
      match spanDigits r2 with
      | ([], _) => none
      | (ds, r3) =>
        match ws1 r3 with
        | none => none
        | some r4 =>
          match dropPrefixCL "similar".data r4 with
          | none => none
          | some r5 =>
            match ws1 r5 with
            | none => none
            | some r6 =>
              match dropPrefixCL "protein".data r6 with
              | none => none
              | some _ => some (digitsVal ds)

/-- `re.search(r"Found\s+(\d+)\s+similar\s+proteins?", s)` (leftmost scan). -/
def foundCountSearch : List Char → Option Nat
  | [] => none
  | c :: cs =>
    match foundCountAt (c :: cs) with
    | some n => some n
    | none => foundCountSearch cs

/-- The alternatives of `r"\b(sorry|error|no results|no hits|not found)\b"`
(all lowercase; matching is done on the lowercased text for `re.I`). -/
def warnWords : List (List Char) :=
  ["sorry".data, "error".data, "no results".data, "no hits".data, "not found".data]

/-- One word alternative at the current position with both `\b` boundaries:
every alternative begins and ends with a word character, so the boundary
holds iff the previous / next character is not a word character (or the
string starts / ends there). -/
def warnWordAt (prevIsWord : Bool) (w : List Char) (cs : List Char) : Bool :=
  if prevIsWord then false
  else
    match dropPrefixCL w cs with
    | some [] => true
    | some (c :: _) => !isWordCh c
    | none => false

/-- Scan for `re.search(r"\b(sorry|error|no results|no hits|not found)\b", s, re.I)`
over the lowercased text. -/
def warnWordScan (prevIsWord : Bool) : List Char → Bool
  | [] => false
  | c :: cs =>
    warnWords.any (fun w => warnWordAt prevIsWord w (c :: cs)) ||
      warnWordScan (isWordCh c) cs

/-- Does the text contain one of the warning words (with `re.I` via
lowercasing; ASCII lowercasing as in the rest of this file)? -/
def hasWarningWord (s : String) : Bool := warnWordScan false (pyLower s).data

/-- One attempt of `re.search(r"(\d+)\s*papers?", s)` (case-sensitive):
maximal digit run, optional whitespace, then the literal `paper`.  A shorter
digit run cannot match (the following digit is neither whitespace nor `p`),
so only the maximal run needs to be checked. -/
def papersCountAt (cs : List Char) : Option Nat :=
  match spanDigits cs with
  | ([], _) => none
  | (ds, rest) =>
    if isPrefixCL "paper".data (rest.dropWhile pyWs) then some (digitsVal ds) else none

/-- `re.search(r"(\d+)\s*papers?", s)` (leftmost scan). -/
def papersCountSearch : List Char → Option Nat
  | [] => none
  | c :: cs =>
    match papersCountAt (c :: cs) with
    | some n => some n
    | none => papersCountSearch cs

/-- One attempt of `re.search(r"(\d+)%\s*LABEL", s)` where LABEL is
`identity` or `coverage`; group 1 is kept as the raw digit string (the code
interpolates it back into an f-string). -/
def percentAt (label : List Char) (cs : List Char) : Option String :=
  match spanDigits cs with
  | ([], _) => none
  | (ds, rest) =>
    match rest with
    | [] => none
    | c :: rest2 =>
      if c = '%' && isPrefixCL label (rest2.dropWhile pyWs) then some (String.mk ds)
      else none

/-- `re.search(r"(\d+)%\s*LABEL", s)` (leftmost scan). -/
def percentSearch (label : List Char) : List Char → Option String
  | [] => none
  | c :: cs =>
    match percentAt label (c :: cs) with
    | some g => some g
    | none => percentSearch label cs

/-- `.*PAT` with `.` not matching newlines: does `pat` occur after the
current position with no newline before it? -/
def afterNoNl (pat : List Char) : List Char → Bool
  | [] => isPrefixCL pat []
  | c :: cs => isPrefixCL pat (c :: cs) || (c ≠ Char.ofNat 10 && afterNoNl pat cs)

/-- One attempt of `re.compile(r"font-(?:family|size).*smaller|smaller.*font", re.I)`
on the lowercased style string. -/
def smallerFontAt (cs : List Char) : Bool :=
  (match dropPrefixCL "font-family".data cs with
   | some rest => afterNoNl "smaller".data rest
   | none => false) ||
  (match dropPrefixCL "font-size".data cs with
   | some rest => afterNoNl "smaller".data rest
   | none => false) ||
  (match dropPrefixCL "smaller".data cs with
   | some rest => afterNoNl "font".data rest
   | none => false)

/-- Leftmost scan for the smaller-font style regex. -/
def smallerFontScan : List Char → Bool
  | [] => false
  | c :: cs => smallerFontAt (c :: cs) || smallerFontScan cs

/-- `re.compile(r"font-(?:family|size).*smaller|smaller.*font", re.I)` as the
attribute filter used for the identity/coverage link. -/
def smallerFontStyle (s : String) : Bool := smallerFontScan (pyLower s).data

/-- A character allowed by the class `[^&\"\'>\s]` of the more-id regex. -/
def moreAllowedCh (c : Char) : Bool :=
  !(c = '&' || c = Char.ofNat 34 || c = Char.ofNat 39 || c = '>' || pyWs c)

/-- Maximal leading run of `moreAllowedCh` characters. -/
def spanMoreAllowed (cs : List Char) : List Char × List Char :=
  (cs.takeWhile moreAllowedCh, cs.dropWhile moreAllowedCh)

/-- One attempt of `re.search(r"more=([^&\"\'>\s]+)", s)`. -/
def moreParamAt (cs : List Char) : Option String :=
  match dropPrefixCL "more=".data cs with
  | some rest =>
    match spanMoreAllowed rest with
    | ([], _) => none
    | (g, _) => some (String.mk g)
  | none => none

/-- `re.search(r"more=([^&\"\'>\s]+)", s)` (leftmost scan). -/
def moreParamSearch : List Char → Option String
  | [] => none
  | c :: cs =>
    match moreParamAt (c :: cs) with
    | some g => some g
    | none => moreParamSearch cs

/-- An ASCII uppercase letter or digit (the class `[A-Z0-9]`). -/
def isUpperOrDigit (c : Char) : Bool := ('A' ≤ c && c ≤ 'Z') || c.isDigit

/-- `re.match(r"^[A-Z0-9]{4,10}$", s)` as a full match; the inputs checked
are already stripped, so the `$`-before-final-newline case cannot arise. -/
def accessionMatchSlash (s : String) : Bool :=
  4 ≤ s.data.length && s.data.length ≤ 10 && s.data.all isUpperOrDigit

/-- `re.match(r"^[A-Z][A-Z0-9]{4,9}$", s)` as a full match (same remark). -/
def accessionMatchBare (s : String) : Bool :=
  match s.data with
  | [] => false
  | c :: rest => ('A' ≤ c && c ≤ 'Z') && 4 ≤ rest.length && rest.length ≤ 9 &&
      rest.all isUpperOrDigit

/-- `re.search(r"^LABEL", s, re.I)`: case-insensitive prefix (via ASCII
lowercasing; the labels are ASCII). -/
def startsWithCI (s pat : String) : Bool := isPrefixCL (pyLower pat).data (pyLower s).data

/-- `re.sub(r"^LABEL\s*", "", s, flags=re.I)` for an ASCII literal label:
remove the label and the following whitespace run when the string starts
with it. -/
def stripLabelCI (label : String) (s : String) : String :=
  if startsWithCI s label then String.mk ((s.data.drop label.length).dropWhile pyWs)
  else s

/-- `re.split(r"\bsubunit:", s, flags=re.I)[0]`: the text before the first
case-insensitive `subunit:` preceded by a word boundary (`subunit:` begins
with a word character, so the boundary holds iff the previous character is
not a word character or the string starts there). -/
def beforeSubunitAux (prevIsWord : Bool) (acc : List Char) : List Char → List Char
  | [] => acc.reverse
  | c :: cs =>
    if !prevIsWord && isPrefixCL "subunit:".data ((c :: cs).map Char.toLower) then
      acc.reverse
    else beforeSubunitAux (isWordCh c) (c :: acc) cs

/-- `re.split(r"\bsubunit:", s, flags=re.I)[0]`. -/
def beforeSubunit (s : String) : String := String.mk (beforeSubunitAux false [] s.data)

/- ----------------------------------------------------------------------
Document model adapter: _clean_text and _extract_links.
---------------------------------------------------------------------- -/

/-- The server's base origin. -/
def BASE_URL : String := "https://papers.genomics.lbl.gov"

/-- The CGI prefix `f"{BASE_URL}/cgi-bin"`. -/
def CGI : String := BASE_URL ++ "/cgi-bin"

/-- `tag.get_text(separator=" ")`: all descendant strings joined by one
space. -/
def getTextSp (n : Node) : String := String.intercalate " " (nodeTexts n)

/-- `_clean_text` (paperblast_mcp.py lines 118-122): collapse whitespace in
the tag's text and strip; a `None` tag yields the empty string. -/
def cleanText : Option Node → String
  | none => ""
  | some tag => pyStrip (collapseWs (getTextSp tag))

/-- `_clean_text` applied to a present tag. -/
def cleanTag (n : Node) : String := cleanText (some n)

/-- The `{text, href}` dictionaries returned by `_extract_links`. -/
structure LinkTH where
  text : String
  href : String
deriving Repr, DecidableEq

/-- Root-relative URL resolution used by `_extract_links` and the snippet
URL: prepend the base origin when the href starts with a slash. -/
def resolveHref (base href : String) : String :=
  if href.startsWith "/" then base ++ href else href

/-- `_extract_links` (lines 125-135): every `<a href=...>` descendant as a
`{text, href}` pair, root-relative hrefs resolved against `BASE_URL` (the
only base the code ever passes); a `None` tag yields the empty list. -/
def extractLinks : Option Node → List LinkTH
  | none => []
  | some tag =>
    (findAllNodes tag (fun n => tagIs n "a" && (attrOf n "href").isSome)).map
      (fun a => ⟨cleanTag a, resolveHref BASE_URL (attrD a "href")⟩)

/- ----------------------------------------------------------------------
Output models (models.py).  Pydantic's `str_strip_whitespace` is not
modelled: every string the parsers store in these records is already
whitespace-stripped (each comes from `_clean_text`, a `.strip()` call, or a
regex class that excludes whitespace), so the validator never changes a
value.
---------------------------------------------------------------------- -/

/-- models.py `GeneEntry`. -/
structure GeneEntry where
  name : String
  db : String
  description : String
  organism : String
  gene_id : String
deriving Repr, DecidableEq

/-- models.py `PaperRef` (the `pmid` field is never set by the parsers and
is omitted). -/
structure PaperRef where
  title : String
  url : String
  citation : String
  snippet : String
  source_db : String
deriving Repr, DecidableEq

/-- models.py `PaperBlastHit`. -/
structure PaperBlastHit where
  gene_entries : List GeneEntry
  identity : String
  coverage : String
  function : String
  subunit : String
  total_curated_papers : Nat
  paper_snippets : List PaperRef
  paper_source : String
  detail_id : String
deriving Repr, DecidableEq

/-- models.py `PaperBlastResults`. -/
structure PaperBlastResults where
  query_info : String
  total_found : Nat
  hits : List PaperBlastHit
  search_url : String
  warnings : List String
deriving Repr, DecidableEq

/-- models.py `ProteinLink`. -/
structure ProteinLink where
  text : String
  href : String
  database : String
deriving Repr, DecidableEq

/-- models.py `CuratedMatch`. -/
structure CuratedMatch where
  description : String
  details : String
  organism : String
  identity : String
  coverage : String
  links : List ProteinLink
deriving Repr, DecidableEq

/-- models.py `CuratedBlastResults`. -/
structure CuratedBlastResults where
  query_info : String
  total_matches : Nat
  «matches» : List CuratedMatch
  search_url : String
  warnings : List String
deriving Repr, DecidableEq

/-- models.py `GapMindOrganism`. -/
structure GapMindOrganism where
  org_id : String
  name : String
  taxonomy : String
deriving Repr, DecidableEq

/- ----------------------------------------------------------------------
_parse_hit_block (lines 219-418), split into its field-recovery passes.
---------------------------------------------------------------------- -/

/-- `<a>` with an `onmousedown` matching `re.compile(r"curated::")`. -/
def isCuratedAnchor (n : Node) : Bool :=
  tagIs n "a" &&
    (match attrOf n "onmousedown" with
     | some v => strContainsSub v "curated::"
     | none => false)

/-- `<a>` with an `onmousedown` matching `re.compile(r"curatedpaper::")`. -/
def isCuratedPaperAnchor (n : Node) : Bool :=
  tagIs n "a" &&
    (match attrOf n "onmousedown" with
     | some v => strContainsSub v "curatedpaper::"
     | none => false)

/-- `<a>` with an `onmousedown` matching `re.compile(r"pb::")`. -/
def isPbAnchor (n : Node) : Bool :=
  tagIs n "a" &&
    (match attrOf n "onmousedown" with
     | some v => strContainsSub v "pb::"
     | none => false)

/-- Lines 243-252: scan the anchor's following siblings for the first `<b>`
(the entry description), stopping at a `<br>`, `<a>`, `<ul>` or `<p>`;
text siblings are skipped, other element tags are stepped over. -/
def descFromSibs : List Node → String
  | [] => ""
  | .text _ :: rest => descFromSibs rest
  | .elem t a cs :: rest =>
    if t = "b" then cleanTag (.elem t a cs)
    else if t = "br" || t = "a" || t = "ul" || t = "p" then ""
    else descFromSibs rest

/-- Lines 254-267: scan the following siblings for the first `<i>` (the
organism), stopping at `<br>` or `<p>`; any other element is searched for a
descendant `<i>` (one-level wrapper case, `sib.find("i")`), and the walk
continues when none is found. -/
def orgFromSibs : List Node → String
  | [] => ""
  | .text _ :: rest => orgFromSibs rest
  | .elem t a cs :: rest =>
    if t = "i" then cleanTag (.elem t a cs)
    else if t = "br" || t = "p" then ""
    else
      match findFirst (.elem t a cs) (fun m => tagIs m "i") with
      | some iTag => cleanTag iTag
      | none => orgFromSibs rest

/-- Lines 234-275: one `GeneEntry` from a curated anchor and its following
siblings. -/
def geneEntryOf (c : Ctx) : GeneEntry :=
  let gene_id :=
    match curatedIdSearch (attrD c.node "onmousedown").data with
    | some g => pyStrip g
    | none => cleanTag c.node
  { name := cleanTag c.node
    db := attrD c.node "title"
    description := descFromSibs c.foll
    organism := orgFromSibs c.foll
    gene_id := gene_id }

/-- The gene-entry list of a hit block (lines 234-275). -/
def geneEntriesOf (block : Node) : List GeneEntry :=
  (findAllCtx block isCuratedAnchor).map geneEntryOf

/-- Lines 278-284: total curated paper count, summed over `curatedpaper::`
anchors; an anchor with no leading number but the word `paper` counts 1. -/
def curatedPapersCount (block : Node) : Nat :=
  (findAllNodes block isCuratedPaperAnchor).foldl
    (fun acc a =>
      let text := cleanTag a
      match papersCountSearch text.data with
      | some n => acc + n
      | none => if strContainsSub (pyLower text) "paper" then acc + 1 else acc)
    0

/-- Lines 287-297: identity / coverage from the smaller-font `<a>`. -/
def identityCoverage (block : Node) : String × String :=
  match findFirst block
      (fun n => tagIs n "a" &&
        (match attrOf n "style" with
         | some v => smallerFontStyle v
         | none => false)) with
  | none => ("", "")
  | some idLink =>
    let idText := (cleanTag idLink).data
    ((percentSearch "identity".data idText).elim "" (fun g => g ++ "%"),
     (percentSearch "coverage".data idText).elim "" (fun g => g ++ "%"))

/-- A `<b>` whose `.string` matches `re.compile(r"^function:", re.I)`. -/
def isFunctionB (n : Node) : Bool :=
  tagIs n "b" &&
    (match nodeString n with
     | some s => startsWithCI s "function:"
     | none => false)

/-- A `<b>` whose `.string` matches `re.compile(r"^subunit:", re.I)`. -/
def isSubunitB (n : Node) : Bool :=
  tagIs n "b" &&
    (match nodeString n with
     | some s => startsWithCI s "subunit:"
     | none => false)

/-- `ul.find_all("li", recursive=False)`: direct `<li>` children. -/
def directChildrenLis : Node → List Node
  | .text _ => []
  | .elem _ _ cs => cs.filter (fun n => tagIs n "li")

/-- The `all_lis` list of lines 302-306: direct `<li>` children of each
trailing `<ul>`, then every `<li>` descendant of the block itself. -/
def allLis (block : Node) (trailing_uls : List Node) : List Node :=
  (trailing_uls.map directChildrenLis).flatten ++
    findAllNodes block (fun n => tagIs n "li")

/-- Lines 308-324: fold over the collected `<li>`s accumulating
`function_text` and `subunit_text`.  A function `<li>` is consumed
(`continue`) even when the stripped text turns out empty; a `<li>` whose
function label was already taken still has its subunit label inspected. -/
def funcSubunitScan : String × String → List Node → String × String
  | st, [] => st
  | (ft, st), li :: rest =>
    let liText := cleanTag li
    if (findFirst li isFunctionB).isSome && ft = "" then
      let ftNew := pyStrip (beforeSubunit (stripLabelCI "function:" liText))
      funcSubunitScan ((if ftNew = "" then ft else ftNew), st) rest
    else if (findFirst li isSubunitB).isSome && st = "" then
      funcSubunitScan (ft, pyStrip (stripLabelCI "subunit:" liText)) rest
    else funcSubunitScan (ft, st) rest

/-- Lines 326-349 for one search target: each `pb::` anchor of the target
becomes a snippet candidate.  `a.find_next("small")` is the first `<small>`
after the anchor in document order; the search is scoped to the target tree
(the tree handed to the parser), as is `a.find_parent("li")`.  The excerpt
is the first direct `<li>` of the first `<ul>` under the parent `<li>`
whose clean text contains a curly opening quote or starts with a straight
quote. -/
def snippetCandidates (target : Node) : List PaperRef :=
  ((descCtx target).enum).filterMap (fun ic =>
    if isPbAnchor ic.2.node then
      let sTitle := cleanTag ic.2.node
      let sUrl := resolveHref BASE_URL (attrD ic.2.node "href")
      let sCitation :=
        match ((descCtx target).enum.filter
            (fun jd => ic.1 < jd.1 && tagIs jd.2.node "small")).head? with
        | some jd => cleanTag jd.2.node
        | none => ""
      let sExcerpt :=
        match ic.2.anc.find? (fun nd => tagIs nd "li") with
        | none => ""
        | some parentLi =>
          match findFirst parentLi (fun m => tagIs m "ul") with
          | none => ""
          | some innerUl =>
            (((directChildrenLis innerUl).filterMap (fun innerLi =>
                let excerpt := cleanTag innerLi
                if excerpt ≠ "" &&
                    (strContainsSub excerpt "“" || excerpt.startsWith "\"") then
                  some excerpt
                else none)).head?).getD ""
      some { title := sTitle, url := sUrl, citation := sCitation,
             snippet := sExcerpt, source_db := "text_mining" }
    else none)

/-- Lines 351-359: keep a candidate when its title is non-empty and no
earlier snippet has the same title. -/
def dedupSnippets (acc : List PaperRef) : List PaperRef → List PaperRef
  | [] => acc
  | s :: rest =>
    if s.title ≠ "" && !(acc.any (fun t => t.title = s.title)) then
      dedupSnippets (acc ++ [s]) rest
    else dedupSnippets acc rest

/-- Lines 326-359: the deduplicated text-mined snippets, searching the
trailing `<ul>`s and then the block itself. -/
def paperSnippetsOf (block : Node) (trailing_uls : List Node) : List PaperRef :=
  dedupSnippets [] (((trailing_uls ++ [block]).map snippetCandidates).flatten)

/-- `<a>` whose href matches `re.compile(r"litSearch\.cgi\?more=")`. -/
def isMoreLink (n : Node) : Bool :=
  tagIs n "a" &&
    (match attrOf n "href" with
     | some v => strContainsSub v "litSearch.cgi?more="
     | none => false)

/-- Lines 368-375: walk the search targets; in each, take the first
more-link and extract `more=([^&\"\'>\s]+)` from its href; on a regex
failure the loop moves to the next target (the `break` sits under
`if m`). -/
def extractMoreId : List Node → Option String
  | [] => none
  | t :: rest =>
    match findFirst t isMoreLink with
    | some link =>
      match moreParamSearch (attrD link "href").data with
      | some g => some g
      | none => extractMoreId rest
    | none => extractMoreId rest

/-- Lines 381-393: fallback detail id from the first SwissProt gene entry
whose name is either `"NAME / ACCESSION"` (accession matching
`^[A-Z0-9]{4,10}$`) or a bare accession matching `^[A-Z][A-Z0-9]{4,9}$`. -/
def fallbackDetailId : List GeneEntry → Option String
  | [] => none
  | ge :: rest =>
    if !(ge.db ≠ "" && strContainsSub ge.db "SwissProt") then fallbackDetailId rest
    else if strContainsSub ge.name " / " then
      let parts := pySplit " / " ge.name
      if parts.length = 2 && accessionMatchSlash (pyStrip (parts.getD 1 "")) then
        some (pyStrip (parts.getD 1 ""))
      else fallbackDetailId rest
    else if accessionMatchBare (pyStrip ge.name) then some (pyStrip ge.name)
    else fallbackDetailId rest

/-- Lines 395-406: the `paper_source` classification exactly as the code
writes it. -/
def paperSourceOf (total_curated_papers : Nat) (paper_snippets : List PaperRef) : String :=
  let has_curated : Bool := decide (0 < total_curated_papers)
  let has_text_mined : Bool := decide (0 < paper_snippets.length)
  if has_curated && has_text_mined then "both"
  else if has_curated then "curated"
  else if has_text_mined then "text_mining"
  else "unknown"

/-- `_parse_hit_block` (lines 219-418).  Returns `none` when the block
yields neither gene entries nor paper snippets (lines 361-363); the
detail id prefers the more-link parameter and falls back to SwissProt
accessions, keeping the Python truthiness check `if not detail_id`. -/
def parseHitBlock (block : Node) (trailing_uls : List Node) : Option PaperBlastHit :=
  let gene_entries := geneEntriesOf block
  let total_curated_papers := curatedPapersCount block
  let idcov := identityCoverage block
  let fs := funcSubunitScan ("", "") (allLis block trailing_uls)
  let paper_snippets := paperSnippetsOf block trailing_uls
  if gene_entries.isEmpty && paper_snippets.isEmpty then none
  else
    let d1 := (extractMoreId (trailing_uls ++ [block])).getD ""
    let detail_id := if d1 = "" then (fallbackDetailId gene_entries).getD "" else d1
    some { gene_entries := gene_entries
           identity := idcov.1
           coverage := idcov.2
           function := fs.1
           subunit := fs.2
           total_curated_papers := total_curated_papers
           paper_snippets := paper_snippets
           paper_source := paperSourceOf total_curated_papers paper_snippets
           detail_id := detail_id }

/- ----------------------------------------------------------------------
_parse_litsearch_results (lines 164-216).
---------------------------------------------------------------------- -/

/-- A hit-block anchor: `<p>` whose style matches
`re.compile(r"margin-top:\s*1em")`. -/
def isHitBlockP (n : Node) : Bool :=
  tagIs n "p" &&
    (match attrOf n "style" with
     | some v => reMarginTop v.data
     | none => false)

/-- Lines 197-205: collect the `<ul>` siblings following a hit block, up to
the next `<p>`; text siblings and other elements are stepped over. -/
def trailingUls : List Node → List Node
  | [] => []
  | .text _ :: rest => trailingUls rest
  | .elem t a cs :: rest =>
    if t = "p" then []
    else if t = "ul" then Node.elem t a cs :: trailingUls rest
    else trailingUls rest

/-- Lines 194-205: every hit-block `<p>` of the document (any depth, in
document order) paired with its trailing `<ul>` siblings. -/
def hitBlocksOf (soup : Node) : List (Node × List Node) :=
  ((descCtx soup).filter (fun c => isHitBlockP c.node)).map
    (fun c => (c.node, trailingUls c.foll))

/-- `_parse_litsearch_results` (lines 164-216). -/
def parseLitsearchResults (soup : Node) : PaperBlastResults :=
  let query_info :=
    match findFirst soup (fun n => tagIs n "h3") with
    | some h3 => cleanTag h3
    | none => ""
  let ps := findAllNodes soup (fun n => tagIs n "p")
  let total_found :=
    ((ps.filterMap (fun p => foundCountSearch (cleanTag p).data)).head?).getD 0
  let warnings := (ps.filter (fun p => hasWarningWord (cleanTag p))).map cleanTag
  let hits := (hitBlocksOf soup).filterMap (fun bu => parseHitBlock bu.1 bu.2)
  { query_info := query_info
    total_found := total_found
    hits := hits
    search_url := ""
    warnings := warnings }

/- ----------------------------------------------------------------------
paperblast_search truncation (lines 880-893) and
paperblast_gene_papers id normalization (lines 922-930).
---------------------------------------------------------------------- -/

/-- The truncation warning of lines 887-890. -/
def truncWarning (max_hits : Int) (total_found : Nat) : String :=
  "Returning top " ++ toString max_hits ++ " of " ++ toString total_found ++
    " hits. Use max_hits to retrieve more (up to 1000) or -1 for all."

/-- Lines 885-891: truncate the hit list to `max_hits` when `max_hits >= 0`
and more hits were parsed, appending the truncation warning first. -/
def applyMaxHits (max_hits : Int) (r : PaperBlastResults) : PaperBlastResults :=
  if 0 ≤ max_hits ∧ max_hits < (r.hits.length : Int) then
    { r with warnings := r.warnings ++ [truncWarning max_hits r.total_found]
             hits := r.hits.take max_hits.toNat }
  else r

/-- The result object `paperblast_search` serializes (lines 880-893): parse,
set the search URL, then apply the truncation policy. -/
def paperblastSearchResult (soup : Node) (query : String) (max_hits : Int) :
    PaperBlastResults :=
  applyMaxHits max_hits
    { parseLitsearchResults soup with
      search_url := CGI ++ "/litSearch.cgi?query=" ++ query }

/-- Lines 926-930: strip, take the part after the last `" / "` when present
(stripped), then the part after the last `"::"` when present (stripped). -/
def normalizeGeneId (gene_id : String) : String :=
  let g1 := pyStrip gene_id
  let g2 := if strContainsSub g1 " / " then pyStrip (splitLast " / " g1) else g1
  if strContainsSub g2 "::" then pyStrip (splitLast "::" g2) else g2

/- ----------------------------------------------------------------------
_handle_error (lines 104-115).
---------------------------------------------------------------------- -/

/-- The exception kinds `_handle_error` distinguishes:
`httpx.HTTPStatusError` (with a response status code),
`httpx.TimeoutException`, and any other exception (type name and
message).  The two httpx classes are disjoint in httpx's hierarchy. -/
inductive PyException where
  | httpStatusError (status : Nat)
  | timeoutException
  | other (typeName : String) (msg : String)
deriving Repr

/-- `_handle_error` (lines 104-115). -/
def handleError : PyException → String
  | .httpStatusError status =>
    if status = 404 then "Error: Endpoint not found. The PaperBLAST server may be down."
    else if status = 500 then
      "Error: PaperBLAST server error. The query may be malformed or the server is overloaded."
    else "Error: HTTP " ++ toString status ++ " from PaperBLAST server."
  | .timeoutException =>
    "Error: Request timed out. BLAST searches on long sequences can take >30s. Try a shorter sequence or an identifier."
  | .other typeName msg => "Error: " ++ typeName ++ ": " ++ msg

/- ----------------------------------------------------------------------
_detect_gapmind_confidence (lines 558-591).
---------------------------------------------------------------------- -/

/-- Lines 567-576: classification of one anchor's inline style (lowercased):
green `#007000` — or `bold` together with the substring `00` — is high;
red `#cc4444` (or its prefix `#cc44`) is low; explicit black `#000000` is
medium; anything else leaves the anchor unclassified. -/
def anchorConfidence (styleRaw : String) : Option String :=
  let style := pyLower styleRaw
  if strContainsSub style "#007000" ||
      (strContainsSub style "bold" && strContainsSub style "00") then some "high"
  else if strContainsSub style "#cc4444" || strContainsSub style "#cc44" then some "low"
  else if strContainsSub style "#000000" then some "medium"
  else none

/-- The classifications of the cell's styled anchors
(`cell.find_all("a", style=True)`), in document order. -/
def styledAnchorConfs (cell : Node) : List String :=
  (findAllNodes cell (fun n => tagIs n "a" && (attrOf n "style").isSome)).filterMap
    (fun a => anchorConfidence (attrD a "style"))

/-- Lines 578-589: the background-colour fallback.  The code also
concatenates the cell's and row's `style` attributes into a local variable
that is never read afterwards (dead code, not modelled); only the parent
row's `bgcolor` is inspected. -/
def bgcolorFallback (ancestors : List Node) : String :=
  match ancestors.find? (fun nd => tagIs nd "tr") with
  | none => "unknown"
  | some row =>
    let bgcolor := pyLower (attrD row "bgcolor")
    if strContainsSub bgcolor "green" || strContainsSub bgcolor "#90" then "high"
    else if strContainsSub bgcolor "yellow" || strContainsSub bgcolor "#ff" then "medium"
    else if strContainsSub bgcolor "red" || strContainsSub bgcolor "#dd" then "low"
    else "unknown"

/-- `_detect_gapmind_confidence` (lines 558-591).  The cell is given with
its ancestor stack (nearest first), over which `find_parent("tr")` is the
first `<tr>`.  The anchor loop returns the first classification any styled
anchor yields; otherwise the bgcolor fallback decides. -/
def detectGapmindConfidence (cell : Node) (ancestors : List Node) : String :=
  match (styledAnchorConfs cell).head? with
  | some conf => conf
  | none => bgcolorFallback ancestors

/- ----------------------------------------------------------------------
_parse_genome_search (lines 421-555).
---------------------------------------------------------------------- -/

/-- The form-page warning of lines 453-458. -/
def genomeFormWarning : String :=
  "Curated BLAST returned the genome-selection form — no results. You must specify genome_id (e.g. 'GCF_000005845.2' for E. coli K-12) and genome_db (default 'NCBI'). Use gapmind_list_organisms or search NCBI Assembly to find a genome ID."

/-- One attempt of `re.search(r"Found (\d+) relevant protein", s)` (the same
pattern also serves as the `soup.find(string=...)` filter). -/
def foundRelevantAt (cs : List Char) : Option Nat :=
  match dropPrefixCL "Found ".data cs with
  | none => none
  | some r1 =>
    match spanDigits r1 with
    | ([], _) => none
    | (ds, r2) =>
      if isPrefixCL " relevant protein".data r2 then some (digitsVal ds) else none

/-- `re.search(r"Found (\d+) relevant protein", s)` (leftmost scan). -/
def foundRelevantSearch : List Char → Option Nat
  | [] => none
  | c :: cs =>
    match foundRelevantAt (c :: cs) with
    | some n => some n
    | none => foundRelevantSearch cs

/-- Lines 469-474: the first text node matching the found-relevant pattern
gives the total genome-protein count (0 when absent). -/
def totalGenomeProteins (soup : Node) : Nat :=
  ((((descCtx soup).filterMap
        (fun c => match c.node with | .text s => some s | _ => none)).filterMap
      (fun s => foundRelevantSearch s.data)).head?).getD 0

/-- Lines 485-542: one `CuratedMatch` from one `<table>`, or `none` when the
table is skipped (`continue`).  Row 0 must carry no truthy bgcolor, have at
least two `<td>` cells and a clean description of length ≥ 5.  The best
curated match is the first of rows 1-3 with a truthy bgcolor and at least
one `<td>`.  (The `n_curated` count of line 530 is computed by the code but
never used, and is not modelled.) -/
def genomeTableMatch (table : Node) : Option CuratedMatch :=
  match findAllNodes table (fun n => tagIs n "tr") with
  | [] => none
  | header_row :: restRows =>
    if attrTruthy header_row "bgcolor" then none
    else
      let cells := findAllNodes header_row (fun n => tagIs n "td")
      if cells.length < 2 then none
      else
        let genome_desc := cleanTag (cells.headD (.text ""))
        if genome_desc = "" || genome_desc.length < 5 then none
        else
          let genome_links := (findAllNodes header_row
              (fun n => tagIs n "a" && (attrOf n "href").isSome)).filterMap
            (fun a =>
              let href := attrD a "href"
              let text := cleanTag a
              if text ≠ "" && href ≠ "" && !strContainsSub href "litSearch" then
                some (⟨text, href, ""⟩ : ProteinLink)
              else none)
          let best := ((restRows.take 3).filterMap (fun row =>
            if !attrTruthy row "bgcolor" then none
            else
              match findAllNodes row (fun n => tagIs n "td") with
              | [] => none
              | c0 :: crest =>
                let best_desc := (cleanTag c0).take 300
                let best_identity :=
                  match crest with
                  | [] => ""
                  | c1 :: _ => (cleanTag c1).take 60
                let best_links := (((findAllNodes row
                    (fun n => tagIs n "a" && (attrOf n "href").isSome)).filterMap
                  (fun a =>
                    let href := attrD a "href"
                    let text := cleanTag a
                    if text ≠ "" && href ≠ "" && !strContainsSub href "showAlign" then
                      some (⟨text, href, ""⟩ : ProteinLink)
                    else none)).head?.elim [] (fun l => [l]))
                some (best_desc, best_identity, best_links))).head?
          let best_desc := (best.map (fun b => b.1)).getD ""
          let best_identity := (best.map (fun b => b.2.1)).getD ""
          let best_links := (best.map (fun b => b.2.2)).getD []
          some { description := genome_desc.take 300
                 details :=
                   (if best_desc ≠ "" then
                     "Best curated match (" ++ best_identity ++ "): " ++ best_desc
                    else "").take 400
                 organism := ""
                 identity := best_identity
                 coverage := ""
                 links := genome_links.take 3 ++ best_links.take 1 }

/-- Lines 480-483: the table loop, stopping as soon as `max_genome_hits`
matches have been collected. -/
def genomeMatchesLoop (max_genome_hits : Nat) (acc : List CuratedMatch) :
    List Node → List CuratedMatch
  | [] => acc
  | t :: rest =>
    if max_genome_hits ≤ acc.length then acc
    else
      match genomeTableMatch t with
      | some m => genomeMatchesLoop max_genome_hits (acc ++ [m]) rest
      | none => genomeMatchesLoop max_genome_hits acc rest

/-- The truncation warning of lines 544-548. -/
def genomeTruncWarning (shown total : Nat) : String :=
  "Showing top " ++ toString shown ++ " of " ++ toString total ++
    " genome proteins. View all results at the search_url."

/-- `_parse_genome_search` (lines 421-555). -/
def parseGenomeSearch (soup : Node) (max_genome_hits : Nat) : CuratedBlastResults :=
  let query_info :=
    match findFirst soup (fun n => tagIs n "title") with
    | some t => cleanTag t
    | none => ""
  let gdb_select := findFirst soup
    (fun n => tagIs n "select" && attrOf n "name" = some "gdb")
  let has_bgcolor := findFirst soup
    (fun n => tagIs n "tr" && (attrOf n "bgcolor").isSome)
  if gdb_select.isSome && !has_bgcolor.isSome then
    { query_info := query_info
      total_matches := 0
      «matches» := []
      search_url := ""
      warnings := [genomeFormWarning] }
  else
    let total := totalGenomeProteins soup
    let ms := genomeMatchesLoop max_genome_hits []
      (findAllNodes soup (fun n => tagIs n "table"))
    let warnings :=
      if total ≠ 0 && ms.length < total then [genomeTruncWarning ms.length total]
      else []
    { query_info := query_info
      total_matches := if total ≠ 0 then total else ms.length
      «matches» := ms
      search_url := ""
      warnings := warnings }

/- ----------------------------------------------------------------------
difflib model: SequenceMatcher(None, a, b).ratio() and
get_close_matches(word, possibilities, n=1, cutoff=0.4), as used by
_find_organism_id.  `a` is a candidate name, `b` the query word (the
argument order of get_close_matches' loop).
---------------------------------------------------------------------- -/

/-- Ascending indices of a character in `b` (difflib's `b2j` entry). -/
def charIndices (b : List Char) (c : Char) : List Nat :=
  b.enum.filterMap (fun p => if p.2 = c then some p.1 else none)

/-- difflib autojunk: with `len(b) >= 200`, characters occupying more than
one percent (strictly more than `len(b) // 100 + 1` positions) are dropped
from `b2j`. -/
def isPopularB (b : List Char) (c : Char) : Bool :=
  200 ≤ b.length && b.length / 100 + 1 < (charIndices b c).length

/-- `b2j.get(c, [])` after the autojunk purge. -/
def b2jGet (b : List Char) (c : Char) : List Nat :=
  if isPopularB b c then [] else charIndices b c

/-- The running best match of `find_longest_match`. -/
structure LongestMatch where
  besti : Nat
  bestj : Nat
  bestsize : Nat
deriving Repr

/-- `j2len.get(k, 0)` on an association list. -/
def j2lenGet (m : List (Nat × Nat)) (k : Nat) : Nat :=
  ((m.find? (fun p => p.1 = k)).map (fun p => p.2)).getD 0

/-- The inner `for j in b2j.get(a[i], [])` loop of `find_longest_match`:
`continue` below `blo`, `break` at `bhi` (the indices are ascending), and
otherwise extend the run ending at `(i, j)`.  Returns the new `j2len` map
and the updated best. -/
def flmInner (blo bhi i : Nat) (j2len : List (Nat × Nat)) :
    List Nat → List (Nat × Nat) → LongestMatch → List (Nat × Nat) × LongestMatch
  | [], newj2len, best => (newj2len, best)
  | j :: js, newj2len, best =>
    if j < blo then flmInner blo bhi i j2len js newj2len best
    else if bhi ≤ j then (newj2len, best)
    else
      let k := (if j = 0 then 0 else j2lenGet j2len (j - 1)) + 1
      let best2 :=
        if best.bestsize < k then ⟨i + 1 - k, j + 1 - k, k⟩ else best
      flmInner blo bhi i j2len js ((j, k) :: newj2len) best2

/-- The outer `for i in range(alo, ahi)` loop of `find_longest_match`. -/
def flmOuter (b : List Char) (a : List Char) (blo bhi : Nat) :
    List Nat → List (Nat × Nat) → LongestMatch → LongestMatch
  | [], _, best => best
  | i :: is, j2len, best =>
    match flmInner blo bhi i j2len (b2jGet b (a.getD i (Char.ofNat 0))) [] best with
    | (newj2len, best2) => flmOuter b a blo bhi is newj2len best2

/-- The left extension loop of `find_longest_match` (with `isjunk=None` the
junk set is empty, so the non-junk extension is a plain equality walk and
the junk extension never fires).  Structural recursion on `besti`; distinct
out-of-range defaults keep the guard false outside the lists. -/
def extLeft (a b : List Char) (alo blo : Nat) : Nat → Nat → Nat → Nat × Nat × Nat
  | 0, bestj, bestsize => (0, bestj, bestsize)
  | bi + 1, bestj, bestsize =>
    if alo < bi + 1 ∧ blo < bestj ∧
        a.getD bi (Char.ofNat 0) = b.getD (bestj - 1) (Char.ofNat 1) then
      extLeft a b alo blo bi (bestj - 1) (bestsize + 1)
    else (bi + 1, bestj, bestsize)

/-- The right extension loop.  `fuel` only bounds the iteration count so the
loop is structural: each pass needs `besti + bestsize < ahi`, so `ahi`
passes always suffice and the loop condition, not the fuel, terminates the
walk. -/
def extRight (a b : List Char) (ahi bhi besti bestj : Nat) : Nat → Nat → Nat
  | 0, bestsize => bestsize
  | fuel + 1, bestsize =>
    if besti + bestsize < ahi ∧ bestj + bestsize < bhi ∧
        a.getD (besti + bestsize) (Char.ofNat 0) =
          b.getD (bestj + bestsize) (Char.ofNat 1) then
      extRight a b ahi bhi besti bestj fuel (bestsize + 1)
    else bestsize

/-- `SequenceMatcher.find_longest_match(alo, ahi, blo, bhi)` with
`isjunk=None`: the dynamic-programming sweep, then the equality extensions
on both ends. -/
def findLongestMatch (a b : List Char) (alo ahi blo bhi : Nat) : Nat × Nat × Nat :=
  let best := flmOuter b a blo bhi (List.range' alo (ahi - alo)) [] ⟨alo, blo, 0⟩
  match extLeft a b alo blo best.besti best.bestj best.bestsize with
  | (bi, bj, bs) => (bi, bj, extRight a b ahi bhi bi bj ahi bs)

/-- The total size of all matching blocks (`get_matching_blocks`' recursive
subdivision; only the sum of the block sizes is needed for `ratio`).  The
added range-bound conjuncts in the guards are invariants of
`find_longest_match` (a non-empty match lies inside the queried range);
they make the recursion depth visibly bounded so `fuel`, which starts above
`(ahi - alo) + (bhi - blo)`, never reaches zero. -/
def matchedTotalAux (a b : List Char) : Nat → Nat → Nat → Nat → Nat → Nat
  | 0, _, _, _, _ => 0
  | fuel + 1, alo, ahi, blo, bhi =>
    match findLongestMatch a b alo ahi blo bhi with
    | (i, j, k) =>
      if k = 0 then 0
      else
        k +
          (if alo < i ∧ blo < j ∧ i + k ≤ ahi ∧ j + k ≤ bhi then
            matchedTotalAux a b fuel alo i blo j
          else 0) +
          (if i + k < ahi ∧ j + k < bhi ∧ alo ≤ i ∧ blo ≤ j then
            matchedTotalAux a b fuel (i + k) ahi (j + k) bhi
          else 0)

/-- The sum of all matching-block sizes between `a` and `b`. -/
def matchedTotal (a b : List Char) : Nat :=
  matchedTotalAux a b (a.length + b.length + 1) 0 a.length 0 b.length

/-- `SequenceMatcher(None, a, b).ratio() = 2*M / (len(a)+len(b))`, with the
empty-empty case fixed at 1 as in `_calculate_ratio`, kept as an exact
(numerator, denominator) pair with a positive denominator.  Exact rational
arithmetic stands in for CPython's floats; `2*M/T` and the 0.4 cutoff are
exactly representable, so every comparison agrees.  Comparisons between
ratios are done by cross-multiplication below. -/
def simScoreFrac (a b : List Char) : Nat × Nat :=
  if a.length + b.length = 0 then (1, 1)
  else (2 * matchedTotal a b, a.length + b.length)

/-- Python string comparison (lexicographic by code point), used by
`heapq.nlargest` on `(score, word)` pairs. -/
def clLt : List Char → List Char → Bool
  | [], [] => false
  | [], _ :: _ => true
  | _ :: _, [] => false
  | c :: cs, d :: ds =>
    if c.val < d.val then true else if d.val < c.val then false else clLt cs ds

/-- `difflib.get_close_matches(word, possibilities, n=1, cutoff=0.4)`:
keep the possibilities whose ratio reaches the cutoff (the
`real_quick_ratio` / `quick_ratio` tests are upper bounds of `ratio` and
filter nothing beyond it), then `heapq.nlargest(1, ...)`, the maximum of
the `(ratio, word)` pairs ordered lexicographically — ties in the ratio go
to the larger word.  The pairs are distinct because the keys of the
caller's `name_map` are distinct.  With the ratio held as a fraction
`(n, d)` (`d > 0`), `ratio ≥ 0.4` is `2*d ≤ 5*n`, `r₁ < r₂` is
`n₁*d₂ < n₂*d₁` and `r₁ = r₂` is `n₁*d₂ = n₂*d₁`. -/
def getCloseMatch1 (word : String) (possibilities : List String) : Option String :=
  let qualified := possibilities.filterMap (fun x =>
    let r := simScoreFrac x.data word.data
    if 2 * r.2 ≤ 5 * r.1 then some (r, x) else none)
  match qualified with
  | [] => none
  | q :: qs =>
    some (qs.foldl
      (fun best p =>
        if best.1.1 * p.1.2 < p.1.1 * best.1.2 ||
            (best.1.1 * p.1.2 = p.1.1 * best.1.2 && clLt best.2.data p.2.data) then p
        else best)
      q).2

/- ----------------------------------------------------------------------
_find_organism_id (lines 667-699).
---------------------------------------------------------------------- -/

/-- One insertion of the dict comprehension
`{org.name.lower(): org for org in organisms}`: a repeated key keeps its
first position and takes the latest value. -/
def dictInsert (m : List (String × GapMindOrganism)) (k : String)
    (v : GapMindOrganism) : List (String × GapMindOrganism) :=
  if m.any (fun p => p.1 = k) then
    m.map (fun p => if p.1 = k then (k, v) else p)
  else m ++ [(k, v)]

/-- `min(substring_matches, key=lambda o: len(o.name))`: the first organism
with the minimal name length. -/
def minByNameLen : List GapMindOrganism → Option GapMindOrganism
  | [] => none
  | o :: os =>
    some (os.foldl (fun best x => if x.name.length < best.name.length then x else best) o)

/-- The lowered-name dictionary of line 694. -/
def orgNameMap (organisms : List GapMindOrganism) : List (String × GapMindOrganism) :=
  organisms.foldl (fun m org => dictInsert m (pyLower org.name) org) []

/-- `_find_organism_id` (lines 667-699): exact case-insensitive match, then
substring match tie-broken by shortest name, then
`difflib.get_close_matches(..., n=1, cutoff=0.4)` through the lowered-name
dictionary. -/
def findOrganismId (organisms : List GapMindOrganism) (query : String) :
    Option GapMindOrganism :=
  let query_lower := pyStrip (pyLower query)
  match organisms.find? (fun org => pyLower org.name = query_lower) with
  | some org => some org
  | none =>
    let substring_matches :=
      organisms.filter (fun org => strContainsSub (pyLower org.name) query_lower)
    if !substring_matches.isEmpty then minByNameLen substring_matches
    else
      let name_map := orgNameMap organisms
      match getCloseMatch1 query_lower (name_map.map (fun p => p.1)) with
      | some best => (name_map.find? (fun p => p.1 = best)).map (fun p => p.2)
      | none => none

/- ----------------------------------------------------------------------
Spec-side definition for the provenance claim, and sample documents used
by witnesses.
---------------------------------------------------------------------- -/

/-- The provenance classification in the spec's words (§4.3): `curated` when
the paper count is positive and there are no snippets; `text_mining` when
snippets exist and the count is zero; `both` when both are present; else
`unknown`. -/
def provenanceSpec (count : Nat) (snippets : List PaperRef) : String :=
  if 0 < count ∧ snippets = [] then "curated"
  else if snippets ≠ [] ∧ count = 0 then "text_mining"
  else if 0 < count ∧ snippets ≠ [] then "both"
  else "unknown"

/-- A token of non-whitespace, non-colon characters: the shape of the
identifier halves in the normalization claim (an accession or curated name
carries neither whitespace nor `:`). -/
def plainToken (s : String) : Bool :=
  !s.data.isEmpty && s.data.all (fun c => !pyWs c && c ≠ ':')

/-- Sample curated anchor (after the docstring HTML of lines 142-162). -/
def sampleCuratedAnchor : Node :=
  .elem "a"
    [("onmousedown", "logger(this,\"curated::MIND_ECOLI / P0AEZ3\")"), ("title", "SwissProt")]
    [.text "MIND_ECOLI / P0AEZ3"]

/-- Sample hit block: curated entry, paper-count link, identity link. -/
def sampleBlock : Node :=
  .elem "p" [("style", "margin-top: 1em; margin-bottom: 0em;")]
    [sampleCuratedAnchor, .text " ",
     .elem "b" [] [.text "Septum site-determining protein MinD"], .text " from ",
     .elem "i" [] [.text "Escherichia coli K-12"], .text " (see ",
     .elem "a" [("onmousedown", "logger(this,\"curatedpaper::MIND_ECOLI\")")]
       [.text "see 44 papers"], .text ") ",
     .elem "a" [("style", "font-family: sans-serif; font-size: smaller;")]
       [.text "100% identity, 100% coverage"]]

/-- Sample trailing list with function and subunit items. -/
def sampleFuncUl : Node :=
  .elem "ul" []
    [.elem "li" [] [.elem "b" [] [.text "function:"],
       .text " ATPase required for MinC activity"],
     .elem "li" [] [.elem "b" [] [.text "subunit:"], .text " Homodimer"]]

/-- Sample trailing list with a text-mined paper snippet. -/
def sampleSnipUl : Node :=
  .elem "ul" []
    [.elem "li" []
      [.elem "a" [("onmousedown", "logger(this,\"pb::b1175\")"), ("href", "/paper.cgi?id=1")]
         [.text "MinD and role of the deviant Walker A motif"],
       .elem "br" [] [],
       .elem "small" [] [.text "Lutkenhaus J, Mol Microbiol 2003"],
       .elem "ul" [] [.elem "li" [] [.text "“the MinD snippet text”"]]]]

/-- Sample litSearch results document: header, total line, one hit block
with its two auto-detached lists. -/
def sampleSoup : Node :=
  .elem "[document]" []
    [.elem "h3" [] [.text "PaperBLAST Hits for P0AEZ3 MinD (Escherichia coli K-12)"],
     .elem "p" [] [.text "Found 100 similar proteins in the literature:"],
     sampleBlock, sampleFuncUl, sampleSnipUl]

/-- The hit parsed from the sample document. -/
def sampleHit : PaperBlastHit :=
  ((parseLitsearchResults sampleSoup).hits).headD ⟨[], "", "", "", "", 0, [], "", ""⟩

/- ----------------------------------------------------------------------
Sanity checks: the scanners and parsers on concrete inputs.
---------------------------------------------------------------------- -/

example : pySplit "::" "a:::b" = ["a", ":b"] := rfl

example : pySplit " / " "MIND_ECOLI / P0AEZ3" = ["MIND_ECOLI", "P0AEZ3"] := rfl

example : pyStrip "  a b\t" = "a b" := rfl

example : collapseWs "a \t b" = "a b" := rfl

example : strContainsSub "xcuratedy" "curated" = true := rfl

example : reMarginTop "margin-top: 1em; margin-bottom: 0em;".data = true := rfl

example : curatedIdSearch "logger(this,\"curated::MIND_ECOLI / P0AEZ3\")".data =
    some "MIND_ECOLI / P0AEZ3" := rfl

example : foundCountSearch "Found 100 similar proteins in the literature:".data =
    some 100 := rfl

example : hasWarningWord "Sorry, no hits were found" = true := rfl

example : hasWarningWord "error-free summary of histidine" = true := rfl

example : papersCountSearch "see 12 papers".data = some 12 := rfl

example : percentSearch "identity".data "100% identity, 100% coverage".data =
    some "100" := rfl

example : percentSearch "coverage".data "100% identity, 100% coverage".data =
    some "100" := rfl

example : smallerFontStyle "font-family: sans-serif; font-size: smaller;" = true := rfl

example : moreParamSearch "litSearch.cgi?more=P0AEZ3&x=1".data = some "P0AEZ3" := rfl

example : accessionMatchSlash "P0AEZ3" = true := rfl

example : accessionMatchBare "b1175" = false := rfl

example : beforeSubunit "does things. Subunit: dimer" = "does things. " := rfl

example : stripLabelCI "function:" "Function: ATPase" = "ATPase" := rfl

/- ----------------------------------------------------------------------
Helper lemmas on the character-list scanners.
---------------------------------------------------------------------- -/

theorem dropWhile_cons_of_neg {p : Char → Bool} {c : Char} {cs : List Char}
    (h : p c = false) : (c :: cs).dropWhile p = c :: cs := by
  simp [List.dropWhile, h]

theorem isPrefixCL_append_self (p r : List Char) : isPrefixCL p (p ++ r) = true := by
  induction p with
  | nil => rfl
  | cons c cs ih => simp [isPrefixCL, ih]

theorem isPrefixCL_head_ne {c d : Char} {ps cs : List Char} (h : c ≠ d) :
    isPrefixCL (c :: ps) (d :: cs) = false := by
  simp [isPrefixCL, h]

/-- A pattern whose first character occurs nowhere in the text is not a
substring of it. -/
theorem containsSubCL_eq_false {p : Char} {ps cs : List Char}
    (h : ∀ c ∈ cs, c ≠ p) : containsSubCL (p :: ps) cs = false := by
  induction cs with
  | nil => rfl
  | cons c cs ih =>
    have hc : c ≠ p := h c (List.mem_cons_self c cs)
    have ih2 := ih (fun x hx => h x (List.mem_cons_of_mem c hx))
    simp [containsSubCL, isPrefixCL_head_ne (Ne.symm hc), ih2]

/-- A substring visible at a suffix is found by the scan. -/
theorem containsSubCL_of_suffix (pat pre cs : List Char)
    (h : isPrefixCL pat cs = true) : containsSubCL pat (pre ++ cs) = true := by
  induction pre with
  | nil =>
    cases cs with
    | nil => simpa [containsSubCL] using h
    | cons c cs' => simp [containsSubCL, h]
  | cons c pre ih => simp [containsSubCL, ih]

theorem containsSubCL_append_sep (x sep y : List Char) :
    containsSubCL sep (x ++ (sep ++ y)) = true :=
  containsSubCL_of_suffix sep x (sep ++ y) (isPrefixCL_append_self sep y)

/-- After a separator match, the `skip` counter consumes exactly the rest of
the separator. -/
theorem pySplitAux_skip (sep t cur rest : List Char) :
    pySplitAux sep t.length cur (t ++ rest) = pySplitAux sep 0 cur rest := by
  induction t generalizing cur with
  | nil => rfl
  | cons c t ih => simpa [pySplitAux] using ih cur

/-- With no separator start anywhere, the scan yields a single segment. -/
theorem pySplitAux_no_match {h : Char} (t cur cs : List Char)
    (hcs : ∀ c ∈ cs, c ≠ h) :
    pySplitAux (h :: t) 0 cur cs = [cur.reverse ++ cs] := by
  induction cs generalizing cur with
  | nil => simp [pySplitAux]
  | cons c cs ih =>
    have hc : c ≠ h := hcs c (List.mem_cons_self c cs)
    simp [pySplitAux, isPrefixCL_head_ne (Ne.symm hc),
      ih (c :: cur) (fun x hx => hcs x (List.mem_cons_of_mem c hx))]

/-- The split of `x ++ sep ++ y` when neither half contains the separator's
first character: exactly the two segments. -/
theorem pySplitAux_two_segments {h : Char} (t x y cur : List Char)
    (hx : ∀ c ∈ x, c ≠ h) (hy : ∀ c ∈ y, c ≠ h) :
    pySplitAux (h :: t) 0 cur (x ++ ((h :: t) ++ y)) = [cur.reverse ++ x, y] := by
  induction x generalizing cur with
  | nil =>
    have h1 : isPrefixCL (h :: t) (h :: (t ++ y)) = true := by
      simpa using isPrefixCL_append_self (h :: t) y
    simp only [List.nil_append, List.cons_append, pySplitAux, List.append_eq, h1,
      if_true]
    rw [show (h :: t).length - 1 = t.length by simp]
    rw [pySplitAux_skip (h :: t) t [] y, pySplitAux_no_match t [] y hy]
    simp
  | cons c x ih =>
    have hc : c ≠ h := hx c (List.mem_cons_self c x)
    have ih2 := ih (c :: cur) (fun z hz => hx z (List.mem_cons_of_mem c hz))
    simp only [List.cons_append, pySplitAux, List.append_eq,
      isPrefixCL_head_ne (Ne.symm hc), Bool.false_eq_true, if_false] at ih2 ⊢
    rw [ih2]
    simp

theorem dropWhile_eq_self_of_all {l : List Char} (h : ∀ c ∈ l, pyWs c = false) :
    l.dropWhile pyWs = l := by
  cases l with
  | nil => rfl
  | cons c cs => exact dropWhile_cons_of_neg (h c (List.mem_cons_self c cs))

/-- Stripping is the identity on a string of non-whitespace characters. -/
theorem pyStrip_token {y : String} (hy : ∀ c ∈ y.data, pyWs c = false) :
    pyStrip y = y := by
  obtain ⟨l⟩ := y
  show String.mk (pyStripList l) = String.mk l
  unfold pyStripList
  rw [dropWhile_eq_self_of_all hy,
    dropWhile_eq_self_of_all (fun c hc => hy c (List.mem_reverse.mp hc)),
    List.reverse_reverse]

/-- Stripping is the identity on a list whose first and last characters are
not whitespace. -/
theorem pyStripList_sandwich {a b : Char} (mid : List Char)
    (ha : pyWs a = false) (hb : pyWs b = false) :
    pyStripList (a :: (mid ++ [b])) = a :: (mid ++ [b]) := by
  unfold pyStripList
  rw [dropWhile_cons_of_neg ha]
  have hrev : (a :: (mid ++ [b])).reverse = b :: (mid.reverse ++ [a]) := by
    simp
  rw [hrev, dropWhile_cons_of_neg hb, ← hrev, List.reverse_reverse]

/- ----------------------------------------------------------------------
C10: the adapter helpers are total on absent elements.
---------------------------------------------------------------------- -/

/-- C10: the document-adapter text and link helpers are total on absent
elements: a `None` tag makes `_clean_text` return the empty string and
`_extract_links` the empty list, so recovering a field from a missing
element yields an empty default instead of failing. -/
theorem c10_adapter_total_on_none :
    cleanText none = "" ∧ extractLinks none = [] := ⟨rfl, rfl⟩

/- ----------------------------------------------------------------------
C9: _handle_error's mapping.
---------------------------------------------------------------------- -/

/-- The generic HTTP-status message differs from the timeout message
(the characters at index 7 differ whatever the status digits are). -/
theorem httpGenericNeTimeout (status : Nat) :
    ("Error: HTTP " ++ toString status ++ " from PaperBLAST server.") ≠
      "Error: Request timed out. BLAST searches on long sequences can take >30s. Try a shorter sequence or an identifier." := by
  intro heq
  have h2 := congrArg (fun s => s.data[7]?) heq
  simp only [String.data_append] at h2
  rw [List.append_assoc, List.getElem?_append_left (by decide)] at h2
  exact absurd h2 (by decide)

/-- C9: the error formatter maps HTTP status 404 to the
endpoint-unavailable message, 500 to the malformed-query / overloaded
message, any other status to the generic message naming that status, and
timeouts to a distinct timeout message (distinct from every status
message). -/
theorem c9_error_mapping (status : Nat) (h404 : status ≠ 404) (h500 : status ≠ 500) :
    handleError (.httpStatusError 404) =
      "Error: Endpoint not found. The PaperBLAST server may be down." ∧
    handleError (.httpStatusError 500) =
      "Error: PaperBLAST server error. The query may be malformed or the server is overloaded." ∧
    handleError (.httpStatusError status) =
      "Error: HTTP " ++ toString status ++ " from PaperBLAST server." ∧
    handleError .timeoutException =
      "Error: Request timed out. BLAST searches on long sequences can take >30s. Try a shorter sequence or an identifier." ∧
    (∀ s : Nat, handleError (.httpStatusError s) ≠ handleError .timeoutException) := by
  refine ⟨rfl, rfl, ?_, rfl, ?_⟩
  · show (if status = 404 then _ else _) = _
    rw [if_neg h404, if_neg h500]
  · intro s
    show (if s = 404 then _ else _) ≠ _
    by_cases h4 : s = 404
    · rw [if_pos h4]; decide
    · rw [if_neg h4]
      by_cases h5 : s = 500
      · rw [if_pos h5]; decide
      · rw [if_neg h5]; exact httpGenericNeTimeout s

/-- Witness for C9 at status 418. -/
theorem c9_error_mapping_witness :
    handleError (.httpStatusError 404) =
      "Error: Endpoint not found. The PaperBLAST server may be down." ∧
    handleError (.httpStatusError 500) =
      "Error: PaperBLAST server error. The query may be malformed or the server is overloaded." ∧
    handleError (.httpStatusError 418) =
      "Error: HTTP " ++ toString 418 ++ " from PaperBLAST server." ∧
    handleError .timeoutException =
      "Error: Request timed out. BLAST searches on long sequences can take >30s. Try a shorter sequence or an identifier." ∧
    (∀ s : Nat, handleError (.httpStatusError s) ≠ handleError .timeoutException) :=
  c9_error_mapping 418 (by decide) (by decide)

/- ----------------------------------------------------------------------
C5: gene-id normalization.
---------------------------------------------------------------------- -/

/-- C5: before the upstream request, a drill-down identifier of shape
`"X / Y"` normalizes to `"Y"` and one of shape `"X::Y"` normalizes to
`"Y"` (the part after the last separator, whitespace-stripped), for
identifier halves free of whitespace and colons. -/
theorem c5_gene_id_normalization (x y : String)
    (hx : plainToken x = true) (hy : plainToken y = true) :
    normalizeGeneId (x ++ " / " ++ y) = y ∧ normalizeGeneId (x ++ "::" ++ y) = y := by
  obtain ⟨xl⟩ := x
  obtain ⟨yl⟩ := y
  simp only [plainToken, Bool.and_eq_true, Bool.not_eq_true',
    List.all_eq_true, decide_eq_true_eq] at hx hy
  obtain ⟨hxne, hxall⟩ := hx
  obtain ⟨hyne, hyall⟩ := hy
  have hxne2 : xl ≠ [] := by
    intro h
    rw [h] at hxne
    exact absurd hxne (by decide)
  have hyne2 : yl ≠ [] := by
    intro h
    rw [h] at hyne
    exact absurd hyne (by decide)
  obtain ⟨xc, xt, rfl⟩ := List.exists_cons_of_ne_nil hxne2
  rcases List.eq_nil_or_concat yl with rfl | ⟨yt, yc, hyl⟩
  · exact absurd rfl hyne2
  rw [List.concat_eq_append] at hyl
  subst hyl
  have hxcw : pyWs xc = false := (hxall xc (List.mem_cons_self _ _)).1
  have hycw : pyWs yc = false :=
    (hyall yc (List.mem_append_right yt (List.mem_cons_self _ _))).1
  have hxsp : ∀ c ∈ xc :: xt, c ≠ ' ' := by
    intro c hc he
    have := (hxall c hc).1
    rw [he] at this
    exact absurd this (by decide)
  have hysp : ∀ c ∈ yt ++ [yc], c ≠ ' ' := by
    intro c hc he
    have := (hyall c hc).1
    rw [he] at this
    exact absurd this (by decide)
  have hxco : ∀ c ∈ xc :: xt, c ≠ ':' := fun c hc => (hxall c hc).2
  have hyco : ∀ c ∈ yt ++ [yc], c ≠ ':' := fun c hc => (hyall c hc).2
  constructor
  · -- "X / Y" case
    show normalizeGeneId (String.mk (((xc :: xt) ++ [' ', '/', ' ']) ++ (yt ++ [yc]))) = _
    have hL : ((xc :: xt) ++ [' ', '/', ' ']) ++ (yt ++ [yc]) =
        xc :: ((xt ++ [' ', '/', ' '] ++ yt) ++ [yc]) := by simp
    have hstrip : pyStrip (String.mk (((xc :: xt) ++ [' ', '/', ' ']) ++ (yt ++ [yc]))) =
        String.mk (((xc :: xt) ++ [' ', '/', ' ']) ++ (yt ++ [yc])) := by
      show String.mk _ = _
      rw [hL, pyStripList_sandwich _ hxcw hycw]
    have hcont : strContainsSub
        (String.mk (((xc :: xt) ++ [' ', '/', ' ']) ++ (yt ++ [yc]))) " / " = true := by
      show containsSubCL [' ', '/', ' '] _ = true
      rw [List.append_assoc]
      exact containsSubCL_append_sep _ _ _
    have hsplit : pySplitAux [' ', '/', ' '] 0 []
        (((xc :: xt) ++ [' ', '/', ' ']) ++ (yt ++ [yc])) =
        [xc :: xt, yt ++ [yc]] := by
      rw [List.append_assoc]
      simpa using pySplitAux_two_segments ['/', ' '] (xc :: xt) (yt ++ [yc]) [] hxsp hysp
    have hnocolon : containsSubCL [':', ':'] (yt ++ [yc]) = false :=
      containsSubCL_eq_false hyco
    unfold normalizeGeneId
    rw [hstrip]
    simp only [hcont, if_true]
    show (if strContainsSub (pyStrip (splitLast " / " _)) "::" = true then _ else _) = _
    rw [show splitLast " / " (String.mk (((xc :: xt) ++ [' ', '/', ' ']) ++ (yt ++ [yc]))) =
          String.mk (yt ++ [yc]) from by
        show ((pySplitAux [' ', '/', ' '] 0 [] _).map String.mk).getLastD "" = _
        rw [hsplit]; rfl]
    rw [pyStrip_token (fun c hc => (hyall c hc).1)]
    show (if containsSubCL [':', ':'] (yt ++ [yc]) = true then _ else _) = _
    rw [hnocolon]
    simp
  · -- "X::Y" case
    show normalizeGeneId (String.mk (((xc :: xt) ++ [':', ':']) ++ (yt ++ [yc]))) = _
    have hL : ((xc :: xt) ++ [':', ':']) ++ (yt ++ [yc]) =
        xc :: ((xt ++ [':', ':'] ++ yt) ++ [yc]) := by simp
    have hstrip : pyStrip (String.mk (((xc :: xt) ++ [':', ':']) ++ (yt ++ [yc]))) =
        String.mk (((xc :: xt) ++ [':', ':']) ++ (yt ++ [yc])) := by
      show String.mk _ = _
      rw [hL, pyStripList_sandwich _ hxcw hycw]
    have hnosp : strContainsSub
        (String.mk (((xc :: xt) ++ [':', ':']) ++ (yt ++ [yc]))) " / " = false := by
      show containsSubCL [' ', '/', ' '] _ = false
      apply containsSubCL_eq_false
      intro c hc
      rcases List.mem_append.mp hc with hc1 | hc2
      · rcases List.mem_append.mp hc1 with hc3 | hc4
        · exact hxsp c hc3
        · intro he
          rw [he] at hc4
          exact absurd hc4 (by decide)
      · exact hysp c hc2
    have hcont2 : strContainsSub
        (String.mk (((xc :: xt) ++ [':', ':']) ++ (yt ++ [yc]))) "::" = true := by
      show containsSubCL [':', ':'] _ = true
      rw [List.append_assoc]
      exact containsSubCL_append_sep _ _ _
    have hsplit2 : pySplitAux [':', ':'] 0 []
        (((xc :: xt) ++ [':', ':']) ++ (yt ++ [yc])) =
        [xc :: xt, yt ++ [yc]] := by
      rw [List.append_assoc]
      simpa using pySplitAux_two_segments [':'] (xc :: xt) (yt ++ [yc]) [] hxco hyco
    unfold normalizeGeneId
    rw [hstrip]
    simp only [hnosp, Bool.false_eq_true, if_false]
    show (if strContainsSub _ "::" = true then _ else _) = _
    rw [hcont2]
    simp only [if_true]
    rw [show splitLast "::" (String.mk (((xc :: xt) ++ [':', ':']) ++ (yt ++ [yc]))) =
          String.mk (yt ++ [yc]) from by
        show ((pySplitAux [':', ':'] 0 [] _).map String.mk).getLastD "" = _
        rw [hsplit2]; rfl]
    exact pyStrip_token (fun c hc => (hyall c hc).1)

/-- Witness for C5 at the spec's end-to-end inputs. -/
theorem c5_gene_id_normalization_witness :
    normalizeGeneId ("MIND_ECOLI" ++ " / " ++ "P0AEZ3") = "P0AEZ3" ∧
    normalizeGeneId ("SwissProt" ++ "::" ++ "P0AEZ3") = "P0AEZ3" :=
  ⟨(c5_gene_id_normalization "MIND_ECOLI" "P0AEZ3" (by decide) (by decide)).1,
   (c5_gene_id_normalization "SwissProt" "P0AEZ3" (by decide) (by decide)).2⟩

/- ----------------------------------------------------------------------
C2: provenance classification.
---------------------------------------------------------------------- -/

/-- The code's if-chain (lines 396-406) computes exactly the spec's case
split. -/
theorem paperSourceOf_eq_spec (count : Nat) (snips : List PaperRef) :
    paperSourceOf count snips = provenanceSpec count snips := by
  rcases Nat.eq_zero_or_pos count with hc | hc
  · subst hc
    cases snips <;> simp [paperSourceOf, provenanceSpec]
  · have hc2 : count ≠ 0 := Nat.pos_iff_ne_zero.mp hc
    cases snips <;> simp [paperSourceOf, provenanceSpec, hc, hc2]

/-- A hit classified `text_mining` has curated paper count zero. -/
theorem paperSourceOf_text_mining (count : Nat) (snips : List PaperRef)
    (h : paperSourceOf count snips = "text_mining") : count = 0 := by
  rcases Nat.eq_zero_or_pos count with hc | hc
  · exact hc
  · have hc2 : count ≠ 0 := Nat.pos_iff_ne_zero.mp hc
    cases snips with
    | nil => simp [paperSourceOf, hc, hc2] at h
    | cons s ss => simp [paperSourceOf, hc, hc2] at h

/-- C2: for every parsed hit block the provenance field is computed exactly
as the spec's case split over (curated paper count, snippet presence)
prescribes, and in particular every `text_mining` hit has curated paper
count zero. -/
theorem c2_provenance (block : Node) (uls : List Node) (h : PaperBlastHit)
    (hp : parseHitBlock block uls = some h) :
    h.paper_source = provenanceSpec h.total_curated_papers h.paper_snippets ∧
    (h.paper_source = "text_mining" → h.total_curated_papers = 0) := by
  by_cases hc : ((geneEntriesOf block).isEmpty && (paperSnippetsOf block uls).isEmpty) = true
  · simp [parseHitBlock, hc] at hp
  · simp only [parseHitBlock, hc, Bool.false_eq_true, if_false, Option.some.injEq] at hp
    subst hp
    exact ⟨paperSourceOf_eq_spec _ _, paperSourceOf_text_mining _ _⟩

/-- The hit parsed from the sample block with its trailing lists. -/
def sampleBlockHit : PaperBlastHit :=
  (parseHitBlock sampleBlock [sampleFuncUl, sampleSnipUl]).getD
    ⟨[], "", "", "", "", 0, [], "", ""⟩

/-- Witness for C2 at the sample hit block. -/
theorem c2_provenance_witness :
    sampleBlockHit.paper_source =
      provenanceSpec sampleBlockHit.total_curated_papers sampleBlockHit.paper_snippets ∧
    (sampleBlockHit.paper_source = "text_mining" →
      sampleBlockHit.total_curated_papers = 0) :=
  c2_provenance sampleBlock [sampleFuncUl, sampleSnipUl] sampleBlockHit (by rfl)

/- ----------------------------------------------------------------------
C3: the drop invariant.
---------------------------------------------------------------------- -/

/-- A hit block that parses to a hit has gene entries or snippets. -/
theorem parseHitBlock_nonempty {block : Node} {uls : List Node} {h : PaperBlastHit}
    (hp : parseHitBlock block uls = some h) :
    h.gene_entries ≠ [] ∨ h.paper_snippets ≠ [] := by
  by_cases hc : ((geneEntriesOf block).isEmpty && (paperSnippetsOf block uls).isEmpty) = true
  · simp [parseHitBlock, hc] at hp
  · simp only [parseHitBlock, hc, Bool.false_eq_true, if_false, Option.some.injEq] at hp
    subst hp
    simp only [Bool.and_eq_true, List.isEmpty_iff] at hc
    rw [not_and_or] at hc
    simpa using hc

/-- C3: a hit block yielding zero gene entries and zero paper snippets is
never in the assembled result list; `_parse_hit_block` returns `None` for
such a block and `_parse_litsearch_results` omits it from `hits`. -/
theorem c3_drop_invariant (block : Node) (uls : List Node) (soup : Node)
    (h : PaperBlastHit) :
    (geneEntriesOf block = [] ∧ paperSnippetsOf block uls = [] →
      parseHitBlock block uls = none) ∧
    (h ∈ (parseLitsearchResults soup).hits →
      h.gene_entries ≠ [] ∨ h.paper_snippets ≠ []) := by
  constructor
  · rintro ⟨h1, h2⟩
    simp [parseHitBlock, h1, h2]
  · intro hmem
    have hhits : (parseLitsearchResults soup).hits =
        (hitBlocksOf soup).filterMap (fun bu => parseHitBlock bu.1 bu.2) := rfl
    rw [hhits] at hmem
    obtain ⟨bu, _, hsome⟩ := List.mem_filterMap.mp hmem
    exact parseHitBlock_nonempty hsome

/-- Witness for C3: the empty paragraph parses to `None`, and the sample
document's parsed hit has gene entries or snippets. -/
theorem c3_drop_invariant_witness :
    parseHitBlock (Node.elem "p" [] []) [] = none ∧
    (sampleHit.gene_entries ≠ [] ∨ sampleHit.paper_snippets ≠ []) :=
  ⟨(c3_drop_invariant (Node.elem "p" [] []) [] sampleSoup sampleHit).1 ⟨rfl, rfl⟩,
   (c3_drop_invariant (Node.elem "p" [] []) [] sampleSoup sampleHit).2
     (by rw [show (parseLitsearchResults sampleSoup).hits = [sampleHit] from rfl]
         exact List.mem_singleton.mpr rfl)⟩

/- ----------------------------------------------------------------------
C1: the truncation policy.  The code truncates on the number of parsed
hits, not on the reported `total_found` count, and the two can differ.
---------------------------------------------------------------------- -/

/-- What `applyMaxHits` does, case by case. -/
theorem applyMaxHits_spec (max_hits : Int) (r : PaperBlastResults) :
    (0 ≤ max_hits → max_hits < (r.hits.length : Int) →
      ((applyMaxHits max_hits r).hits.length : Int) = max_hits ∧
      truncWarning max_hits r.total_found ∈ (applyMaxHits max_hits r).warnings) ∧
    (0 ≤ max_hits → (r.hits.length : Int) ≤ max_hits →
      applyMaxHits max_hits r = r) ∧
    (max_hits = -1 → applyMaxHits max_hits r = r) := by
  unfold applyMaxHits
  by_cases hc : 0 ≤ max_hits ∧ max_hits < (r.hits.length : Int)
  · rw [if_pos hc]
    refine ⟨fun h0 hlt => ⟨?_, ?_⟩, fun h0 hle => absurd hc.2 (not_lt.mpr hle),
      fun hm1 => ?_⟩
    · have h1 : max_hits.toNat ≤ r.hits.length := by omega
      simp only [List.length_take]
      omega
    · exact List.mem_append_right _ (List.mem_singleton.mpr rfl)
    · exact absurd hc.1 (by omega)
  · rw [if_neg hc]
    exact ⟨fun h0 hlt => absurd ⟨h0, hlt⟩ hc, fun _ _ => rfl, fun _ => rfl⟩

/-- C1 (amended): the truncation policy compares `max_hits` with the number
of parsed hits, not with the reported `total_found`.  When `max_hits ≥ 0`
and more hits were parsed, the emitted list has length exactly `max_hits`
and the truncation warning (which quotes `total_found`) is appended; when
`max_hits ≥ 0` covers all parsed hits, or `max_hits = -1`, the hit list and
the warnings are unchanged (no truncation warning appears). -/
theorem c1_truncation_amended (soup : Node) (query : String) (max_hits : Int) :
    (0 ≤ max_hits → max_hits < ((parseLitsearchResults soup).hits.length : Int) →
      ((paperblastSearchResult soup query max_hits).hits.length : Int) = max_hits ∧
      truncWarning max_hits (parseLitsearchResults soup).total_found ∈
        (paperblastSearchResult soup query max_hits).warnings) ∧
    (0 ≤ max_hits → ((parseLitsearchResults soup).hits.length : Int) ≤ max_hits →
      (paperblastSearchResult soup query max_hits).hits =
        (parseLitsearchResults soup).hits ∧
      (paperblastSearchResult soup query max_hits).warnings =
        (parseLitsearchResults soup).warnings) ∧
    (max_hits = -1 →
      (paperblastSearchResult soup query max_hits).hits =
        (parseLitsearchResults soup).hits ∧
      (paperblastSearchResult soup query max_hits).warnings =
        (parseLitsearchResults soup).warnings) := by
  have hs := applyMaxHits_spec max_hits
    { parseLitsearchResults soup with
      search_url := CGI ++ "/litSearch.cgi?query=" ++ query }
  refine ⟨fun h0 hlt => hs.1 h0 hlt, fun h0 hle => ?_, fun hm1 => ?_⟩
  · have h2 := hs.2.1 h0 hle
    unfold paperblastSearchResult
    rw [h2]
    exact ⟨rfl, rfl⟩
  · have h2 := hs.2.2 hm1
    unfold paperblastSearchResult
    rw [h2]
    exact ⟨rfl, rfl⟩

/-- A hit block holding one curated anchor (enough to parse as a hit). -/
def c1Block1 : Node :=
  .elem "p" [("style", "margin-top: 1em;")]
    [.elem "a" [("onmousedown", "logger(this,\"curated::G1\")")] [.text "G1"]]

/-- A second such hit block. -/
def c1Block2 : Node :=
  .elem "p" [("style", "margin-top: 1em;")]
    [.elem "a" [("onmousedown", "logger(this,\"curated::G2\")")] [.text "G2"]]

/-- A document whose reported total (100) exceeds the number of parsed hit
blocks (2): the heuristic block detection found fewer blocks than the page
reports. -/
def c1Soup : Node :=
  .elem "[document]" []
    [.elem "p" [] [.text "Found 100 similar proteins in the literature:"],
     c1Block1, c1Block2]

/-- Counterexample to C1 as stated: with requested `max_hits = 10 ≥ 0` the
total found (100) exceeds `max_hits`, yet the emitted list has length 2 —
not `max_hits` — and no truncation warning is present. -/
theorem c1_counterexample :
    (0 : Int) ≤ 10 ∧
    (10 : Int) < ((paperblastSearchResult c1Soup "P0AEZ3" 10).total_found : Int) ∧
    (paperblastSearchResult c1Soup "P0AEZ3" 10).hits.length = 2 ∧
    (paperblastSearchResult c1Soup "P0AEZ3" 10).warnings = [] :=
  ⟨by decide, by decide, rfl, rfl⟩

/-- Witness for the amended C1: truncation at `max_hits = 1` on the same
document, and the untouched `-1` case. -/
theorem c1_truncation_amended_witness :
    (((paperblastSearchResult c1Soup "P0AEZ3" 1).hits.length : Int) = 1 ∧
      truncWarning 1 (parseLitsearchResults c1Soup).total_found ∈
        (paperblastSearchResult c1Soup "P0AEZ3" 1).warnings) ∧
    ((paperblastSearchResult c1Soup "P0AEZ3" (-1)).hits =
        (parseLitsearchResults c1Soup).hits ∧
      (paperblastSearchResult c1Soup "P0AEZ3" (-1)).warnings =
        (parseLitsearchResults c1Soup).warnings) :=
  ⟨(c1_truncation_amended c1Soup "P0AEZ3" 1).1 (by decide) (by decide),
   (c1_truncation_amended c1Soup "P0AEZ3" (-1)).2.2 rfl⟩

/- ----------------------------------------------------------------------
C6: shape of the extracted detail id.  The fallback accession patterns
admit neither `::` nor `" / "`; the more-link parameter admits no
whitespace (hence no `" / "`) but is taken verbatim and can contain `::`.
---------------------------------------------------------------------- -/

theorem moreParamAt_all {cs : List Char} {g : String}
    (h : moreParamAt cs = some g) : ∀ c ∈ g.data, moreAllowedCh c = true := by
  unfold moreParamAt at h
  cases hdp : dropPrefixCL "more=".data cs with
  | none => simp only [hdp] at h; cases h
  | some rest =>
    simp only [hdp, spanMoreAllowed] at h
    cases htw : rest.takeWhile moreAllowedCh with
    | nil => simp only [htw] at h; cases h
    | cons d ds =>
      simp only [htw] at h
      cases h
      intro c hc
      exact List.mem_takeWhile_imp (htw ▸ hc)

theorem moreParamSearch_all {cs : List Char} {g : String}
    (h : moreParamSearch cs = some g) : ∀ c ∈ g.data, moreAllowedCh c = true := by
  induction cs with
  | nil => cases h
  | cons d ds ih =>
    rw [moreParamSearch] at h
    cases hat : moreParamAt (d :: ds) with
    | some g2 => simp only [hat] at h; cases h; exact moreParamAt_all hat
    | none => simp only [hat] at h; exact ih h

theorem extractMoreId_all {ts : List Node} {g : String}
    (h : extractMoreId ts = some g) : ∀ c ∈ g.data, moreAllowedCh c = true := by
  induction ts with
  | nil => cases h
  | cons t rest ih =>
    rw [extractMoreId] at h
    cases hf : findFirst t isMoreLink with
    | none => simp only [hf] at h; exact ih h
    | some link =>
      simp only [hf] at h
      cases hm : moreParamSearch (attrD link "href").data with
      | none => simp only [hm] at h; exact ih h
      | some g2 => simp only [hm] at h; cases h; exact moreParamSearch_all hm

theorem accessionMatchSlash_all {s : String} (h : accessionMatchSlash s = true) :
    ∀ c ∈ s.data, isUpperOrDigit c = true := by
  simp only [accessionMatchSlash, Bool.and_eq_true, List.all_eq_true,
    decide_eq_true_eq] at h
  exact h.2

theorem accessionMatchBare_all {s : String} (h : accessionMatchBare s = true) :
    ∀ c ∈ s.data, isUpperOrDigit c = true := by
  unfold accessionMatchBare at h
  intro d hd
  cases hs : s.data with
  | nil => rw [hs] at hd; cases hd
  | cons c rest =>
    rw [hs] at h hd
    simp only [Bool.and_eq_true, List.all_eq_true, decide_eq_true_eq] at h
    obtain ⟨⟨⟨hAZ, h4⟩, h9⟩, hall⟩ := h
    rcases List.mem_cons.mp hd with rfl | hin
    · simp only [isUpperOrDigit, Bool.or_eq_true, Bool.and_eq_true, decide_eq_true_eq]
      exact Or.inl hAZ
    · exact hall d hin

theorem fallbackDetailId_all {ges : List GeneEntry} {g : String}
    (h : fallbackDetailId ges = some g) : ∀ c ∈ g.data, isUpperOrDigit c = true := by
  induction ges with
  | nil => cases h
  | cons ge rest ih =>
    rw [fallbackDetailId] at h
    simp only [] at h
    split at h
    · exact ih h
    · split at h
      · split at h
        · cases h
          rename_i hcond
          simp only [Bool.and_eq_true, decide_eq_true_eq] at hcond
          exact accessionMatchSlash_all hcond.2
        · exact ih h
      · split at h
        · cases h
          rename_i hbare
          exact accessionMatchBare_all hbare
        · exact ih h

/-- An all-uppercase-or-digit string contains no space and no colon. -/
theorem upperOrDigit_no_space_colon {c : Char} (h : isUpperOrDigit c = true) :
    c ≠ ' ' ∧ c ≠ ':' := by
  simp only [isUpperOrDigit, Bool.or_eq_true, Bool.and_eq_true, decide_eq_true_eq] at h
  constructor <;> rintro rfl <;> revert h <;> decide

/-- A more-link parameter character is not whitespace. -/
theorem moreAllowed_no_space {c : Char} (h : moreAllowedCh c = true) : c ≠ ' ' := by
  rintro rfl
  revert h
  decide

/-- C6 (amended): a parsed hit's detail id never contains `" / "` (both
extraction paths exclude whitespace), and whenever the more-link path
yields nothing — so the id comes from the fallback accession patterns or
stays empty — it contains no `"::"` either.  (The more-link path copies the
link's `more=` parameter verbatim, which may contain `::`.) -/
theorem c6_detail_id_shape (block : Node) (uls : List Node) (h : PaperBlastHit)
    (hp : parseHitBlock block uls = some h) :
    strContainsSub h.detail_id " / " = false ∧
    (extractMoreId (uls ++ [block]) = none →
      strContainsSub h.detail_id "::" = false) := by
  by_cases hc : ((geneEntriesOf block).isEmpty && (paperSnippetsOf block uls).isEmpty) = true
  · simp [parseHitBlock, hc] at hp
  · simp only [parseHitBlock, hc, Bool.false_eq_true, if_false, Option.some.injEq] at hp
    subst hp
    constructor
    · show containsSubCL [' ', '/', ' '] _ = false
      cases hm : extractMoreId (uls ++ [block]) with
      | some g =>
        simp only [hm, Option.getD_some]
        by_cases hg : g = ""
        · subst hg
          cases hfb : fallbackDetailId (geneEntriesOf block) with
          | none => decide
          | some f =>
            simp only [if_pos rfl, hfb, Option.getD_some]
            exact containsSubCL_eq_false
              (fun c hcin => (upperOrDigit_no_space_colon (fallbackDetailId_all hfb c hcin)).1)
        · simp only [if_neg hg]
          exact containsSubCL_eq_false
            (fun c hcin => moreAllowed_no_space (extractMoreId_all hm c hcin))
      | none =>
        simp only [hm, Option.getD_none, if_pos rfl]
        cases hfb : fallbackDetailId (geneEntriesOf block) with
        | none => decide
        | some f =>
          simp only [hfb, Option.getD_some]
          exact containsSubCL_eq_false
            (fun c hcin => (upperOrDigit_no_space_colon (fallbackDetailId_all hfb c hcin)).1)
    · intro hm
      show containsSubCL [':', ':'] _ = false
      simp only [hm, Option.getD_none, if_pos rfl]
      cases hfb : fallbackDetailId (geneEntriesOf block) with
      | none => decide
      | some f =>
        simp only [hfb, Option.getD_some]
        exact containsSubCL_eq_false
          (fun c hcin => (upperOrDigit_no_space_colon (fallbackDetailId_all hfb c hcin)).2)

/-- A hit block whose more-link carries a composite `db::id` parameter. -/
def c6Block : Node :=
  .elem "p" [("style", "margin-top: 1em;")]
    [.elem "a" [("onmousedown", "logger(this,\"curated::MIND_ECOLI\")")] [.text "MIND_ECOLI"],
     .elem "a" [("href", "litSearch.cgi?more=SwissProt::P0AEZ3")] [.text "More"]]

/-- Counterexample to C6 as stated: the block parses to a hit whose
detail id is the composite `SwissProt::P0AEZ3`, which contains `::`. -/
theorem c6_counterexample :
    (parseHitBlock c6Block []).map (fun h => h.detail_id) = some "SwissProt::P0AEZ3" ∧
    strContainsSub "SwissProt::P0AEZ3" "::" = true := ⟨rfl, rfl⟩

/-- Witness for the amended C6 at the sample hit block (whose detail id
comes from the SwissProt fallback). -/
theorem c6_detail_id_shape_witness :
    strContainsSub sampleBlockHit.detail_id " / " = false ∧
    (extractMoreId ([sampleFuncUl, sampleSnipUl] ++ [sampleBlock]) = none →
      strContainsSub sampleBlockHit.detail_id "::" = false) :=
  c6_detail_id_shape sampleBlock [sampleFuncUl, sampleSnipUl] sampleBlockHit (by rfl)

/- ----------------------------------------------------------------------
C8: genome-search form-page short circuit.
---------------------------------------------------------------------- -/

/-- C8: a genome-search document with the genome-selector element and no
background-coloured table row short-circuits to zero matches,
`total_matches = 0` and the warning telling the caller to supply a genome
identifier. -/
theorem c8_form_short_circuit (soup : Node) (mx : Nat)
    (hsel : (findFirst soup
      (fun n => tagIs n "select" && attrOf n "name" = some "gdb")).isSome = true)
    (hbg : (findFirst soup
      (fun n => tagIs n "tr" && (attrOf n "bgcolor").isSome)).isSome = false) :
    (parseGenomeSearch soup mx).total_matches = 0 ∧
    (parseGenomeSearch soup mx).«matches» = [] ∧
    (parseGenomeSearch soup mx).warnings = [genomeFormWarning] := by
  unfold parseGenomeSearch
  simp only [hsel, hbg, Bool.not_false, Bool.and_self, if_true]
  exact ⟨trivial, trivial, trivial⟩

/-- The unfilled query form page: a `gdb` selector and no coloured rows. -/
def c8FormSoup : Node :=
  .elem "[document]" []
    [.elem "title" [] [.text "Curated BLAST for genomes"],
     .elem "form" []
       [.elem "select" [("name", "gdb")] [.elem "option" [] [.text "NCBI"]]]]

/-- Witness for C8 on the concrete form page. -/
theorem c8_form_short_circuit_witness :
    (parseGenomeSearch c8FormSoup 20).total_matches = 0 ∧
    (parseGenomeSearch c8FormSoup 20).«matches» = [] ∧
    (parseGenomeSearch c8FormSoup 20).warnings = [genomeFormWarning] :=
  c8_form_short_circuit c8FormSoup 20 (by rfl) (by rfl)

/- ----------------------------------------------------------------------
C7: pathway-confidence decoding.
---------------------------------------------------------------------- -/

/-- C7: the confidence decoder.  Per anchor style (lowercased): the specific
green `#007000` together with `bold` yields `high`; the specific red
`#cc4444` — in a style carrying none of the high markers — yields `low`;
the specific plain black `#000000` — with no bold and none of the
green/red markers — yields `medium`.  The cell takes the first
classification any styled anchor yields; with no matching anchor style the
decoder falls back to the parent row's background colour (green-ish high,
yellow-ish medium, red-ish low), and with nothing matching it returns
`unknown`. -/
theorem c7_confidence_decoding (st : String) (cell : Node) (anc : List Node)
    (row : Node) (conf : String) :
    (strContainsSub (pyLower st) "#007000" = true →
      strContainsSub (pyLower st) "bold" = true →
      anchorConfidence st = some "high") ∧
    (strContainsSub (pyLower st) "#cc4444" = true →
      strContainsSub (pyLower st) "#007000" = false →
      (strContainsSub (pyLower st) "bold" && strContainsSub (pyLower st) "00") = false →
      anchorConfidence st = some "low") ∧
    (strContainsSub (pyLower st) "#000000" = true →
      strContainsSub (pyLower st) "#007000" = false →
      strContainsSub (pyLower st) "bold" = false →
      strContainsSub (pyLower st) "#cc4444" = false →
      strContainsSub (pyLower st) "#cc44" = false →
      anchorConfidence st = some "medium") ∧
    ((styledAnchorConfs cell).head? = some conf →
      detectGapmindConfidence cell anc = conf) ∧
    (styledAnchorConfs cell = [] →
      detectGapmindConfidence cell anc = bgcolorFallback anc) ∧
    (anc.find? (fun nd => tagIs nd "tr") = none → bgcolorFallback anc = "unknown") ∧
    (anc.find? (fun nd => tagIs nd "tr") = some row →
      ((strContainsSub (pyLower (attrD row "bgcolor")) "green" = true ∨
          strContainsSub (pyLower (attrD row "bgcolor")) "#90" = true) →
        bgcolorFallback anc = "high") ∧
      (strContainsSub (pyLower (attrD row "bgcolor")) "green" = false →
        strContainsSub (pyLower (attrD row "bgcolor")) "#90" = false →
        (strContainsSub (pyLower (attrD row "bgcolor")) "yellow" = true ∨
          strContainsSub (pyLower (attrD row "bgcolor")) "#ff" = true) →
        bgcolorFallback anc = "medium") ∧
      (strContainsSub (pyLower (attrD row "bgcolor")) "green" = false →
        strContainsSub (pyLower (attrD row "bgcolor")) "#90" = false →
        strContainsSub (pyLower (attrD row "bgcolor")) "yellow" = false →
        strContainsSub (pyLower (attrD row "bgcolor")) "#ff" = false →
        (strContainsSub (pyLower (attrD row "bgcolor")) "red" = true ∨
          strContainsSub (pyLower (attrD row "bgcolor")) "#dd" = true) →
        bgcolorFallback anc = "low") ∧
      (strContainsSub (pyLower (attrD row "bgcolor")) "green" = false →
        strContainsSub (pyLower (attrD row "bgcolor")) "#90" = false →
        strContainsSub (pyLower (attrD row "bgcolor")) "yellow" = false →
        strContainsSub (pyLower (attrD row "bgcolor")) "#ff" = false →
        strContainsSub (pyLower (attrD row "bgcolor")) "red" = false →
        strContainsSub (pyLower (attrD row "bgcolor")) "#dd" = false →
        bgcolorFallback anc = "unknown")) := by
  refine ⟨?_, ?_, ?_, ?_, ?_, ?_, ?_⟩
  · intro h1 h2
    simp [anchorConfidence, h1]
  · intro h1 h2 h3
    simp [anchorConfidence, h1, h2, h3]
  · intro h1 h2 h3 h4 h5
    simp [anchorConfidence, h1, h2, h3, h4, h5]
  · intro hh
    unfold detectGapmindConfidence
    rw [hh]
  · intro hh
    unfold detectGapmindConfidence
    rw [hh]
    rfl
  · intro hf
    unfold bgcolorFallback
    rw [hf]
  · intro hf
    refine ⟨?_, ?_, ?_, ?_⟩ 
    · intro hg
      unfold bgcolorFallback
      rw [hf]
      rcases hg with hg | hg <;> simp [hg]
    · intro h1 h2 hy
      unfold bgcolorFallback
      rw [hf]
      rcases hy with hy | hy <;> simp [h1, h2, hy]
    · intro h1 h2 h3 h4 hr
      unfold bgcolorFallback
      rw [hf]
      rcases hr with hr | hr <;> simp [h1, h2, h3, h4, hr]
    · intro h1 h2 h3 h4 h5 h6
      unfold bgcolorFallback
      rw [hf]
      simp [h1, h2, h3, h4, h5, h6]

/-- A cell with one green/bold styled anchor. -/
def c7HighCell : Node :=
  .elem "td" []
    [.elem "a" [("style", "color: #007000; font-weight: bold;")] [.text "high step"]]

/-- A cell with no styled anchor, for the bgcolor fallback. -/
def c7PlainCell : Node := .elem "td" [] [.text "pathway"]

/-- The parent row carrying a green-ish background. -/
def c7GreenRow : Node := .elem "tr" [("bgcolor", "#90EE90")] []

/-- Witness for C7: the three anchor styles, the anchor-first cell
behaviour, and the fallback / unknown paths at concrete inputs. -/
theorem c7_confidence_decoding_witness :
    anchorConfidence "color: #007000; font-weight: bold;" = some "high" ∧
    anchorConfidence "color: #CC4444;" = some "low" ∧
    anchorConfidence "color: #000000;" = some "medium" ∧
    detectGapmindConfidence c7HighCell [] = "high" ∧
    detectGapmindConfidence c7PlainCell [c7GreenRow] = bgcolorFallback [c7GreenRow] ∧
    bgcolorFallback [c7GreenRow] = "high" ∧
    bgcolorFallback [] = "unknown" :=
  ⟨(c7_confidence_decoding "color: #007000; font-weight: bold;" c7HighCell []
      c7GreenRow "high").1 (by decide) (by decide),
   (c7_confidence_decoding "color: #CC4444;" c7HighCell [] c7GreenRow "high").2.1
      (by decide) (by decide) (by decide),
   (c7_confidence_decoding "color: #000000;" c7HighCell [] c7GreenRow "high").2.2.1
      (by decide) (by decide) (by decide) (by decide) (by decide),
   (c7_confidence_decoding "" c7HighCell [] c7GreenRow "high").2.2.2.1 (by rfl),
   (c7_confidence_decoding "" c7PlainCell [c7GreenRow] c7GreenRow "high").2.2.2.2.1
      (by rfl),
   ((c7_confidence_decoding "" c7PlainCell [c7GreenRow] c7GreenRow
      "high").2.2.2.2.2.2 (by rfl)).1 (Or.inr (by decide)),
   (c7_confidence_decoding "" c7PlainCell [] c7GreenRow "high").2.2.2.2.2.1 (by rfl)⟩

/- ----------------------------------------------------------------------
C4: fuzzy organism resolution priority.
---------------------------------------------------------------------- -/

/-- C4: the resolver applies its stages in strict priority order.  (1) If
some organism's lowercased name equals the lowercased, stripped query, the
first such organism is returned — whatever substring or similarity matches
exist.  (2) Otherwise, if some name contains the query, the first shortest
such name's organism is returned.  (3) Otherwise the result is the single
best `(ratio, name)` candidate of `getCloseMatch1` — the similarity-ranked
match above the fixed 0.4 cutoff — looked up through the lowered-name map;
in particular, if no candidate clears the cutoff the resolver returns
`none`. -/
theorem c4_fuzzy_resolution (organisms : List GapMindOrganism) (query : String)
    (org : GapMindOrganism) :
    (organisms.find? (fun o => pyLower o.name = pyStrip (pyLower query)) = some org →
      findOrganismId organisms query = some org) ∧
    (organisms.find? (fun o => pyLower o.name = pyStrip (pyLower query)) = none →
      organisms.filter (fun o =>
        strContainsSub (pyLower o.name) (pyStrip (pyLower query))) ≠ [] →
      findOrganismId organisms query =
        minByNameLen (organisms.filter (fun o =>
          strContainsSub (pyLower o.name) (pyStrip (pyLower query))))) ∧
    (organisms.find? (fun o => pyLower o.name = pyStrip (pyLower query)) = none →
      organisms.filter (fun o =>
        strContainsSub (pyLower o.name) (pyStrip (pyLower query))) = [] →
      findOrganismId organisms query =
        (getCloseMatch1 (pyStrip (pyLower query))
            ((orgNameMap organisms).map (fun p => p.1))).bind
          (fun best =>
            ((orgNameMap organisms).find? (fun p => p.1 = best)).map (fun p => p.2))) ∧
    (organisms.find? (fun o => pyLower o.name = pyStrip (pyLower query)) = none →
      organisms.filter (fun o =>
        strContainsSub (pyLower o.name) (pyStrip (pyLower query))) = [] →
      getCloseMatch1 (pyStrip (pyLower query))
        ((orgNameMap organisms).map (fun p => p.1)) = none →
      findOrganismId organisms query = none) := by
  have hmain : ∀ (hf : organisms.find?
        (fun o => pyLower o.name = pyStrip (pyLower query)) = none)
      (hfe : organisms.filter (fun o =>
        strContainsSub (pyLower o.name) (pyStrip (pyLower query))) = []),
      findOrganismId organisms query =
        (getCloseMatch1 (pyStrip (pyLower query))
            ((orgNameMap organisms).map (fun p => p.1))).bind
          (fun best =>
            ((orgNameMap organisms).find? (fun p => p.1 = best)).map (fun p => p.2)) := by
    intro hf hfe
    unfold findOrganismId
    simp only [hf, hfe, List.isEmpty_nil, Bool.not_true, Bool.false_eq_true, if_false]
    cases hg : getCloseMatch1 (pyStrip (pyLower query))
        ((orgNameMap organisms).map (fun p => p.1)) with
    | none => simp [hg]
    | some best => simp [hg]
  refine ⟨?_, ?_, hmain, ?_⟩
  · intro hf
    unfold findOrganismId
    simp only [hf]
  · intro hf hne
    unfold findOrganismId
    have hB : (organisms.filter (fun o =>
        strContainsSub (pyLower o.name) (pyStrip (pyLower query)))).isEmpty = false := by
      cases hl : organisms.filter (fun o =>
          strContainsSub (pyLower o.name) (pyStrip (pyLower query))) with
      | nil => exact absurd hl hne
      | cons a l => rfl
    simp only [hf, hB, Bool.not_false, if_true]
  · intro hf hfe hg
    rw [hmain hf hfe, hg]
    rfl

/-- Organisms for the C4 witness: an exact match standing after a longer
substring match, so the exact stage must win. -/
def c4Orgs : List GapMindOrganism :=
  [⟨"org1", "Escherichia coli BW25113", ""⟩,
   ⟨"org2", "escherichia coli", ""⟩,
   ⟨"org3", "Bacillus subtilis 168", ""⟩]

/-- Witness for C4: the exact stage returns the exact-match organism even
though a substring match exists; a query matching only by substring takes
the shortest containing name; a hopeless query resolves to `none` through
the similarity stage. -/
theorem c4_fuzzy_resolution_witness :
    findOrganismId c4Orgs "Escherichia coli" = some ⟨"org2", "escherichia coli", ""⟩ ∧
    findOrganismId c4Orgs "subtilis" =
      minByNameLen (c4Orgs.filter (fun o =>
        strContainsSub (pyLower o.name) (pyStrip (pyLower "subtilis")))) ∧
    findOrganismId c4Orgs "xqzw" = none :=
  ⟨(c4_fuzzy_resolution c4Orgs "Escherichia coli"
      ⟨"org2", "escherichia coli", ""⟩).1 (by decide),
   (c4_fuzzy_resolution c4Orgs "subtilis" ⟨"org2", "escherichia coli", ""⟩).2.1
      (by decide) (by decide),
   (c4_fuzzy_resolution c4Orgs "xqzw" ⟨"org2", "escherichia coli", ""⟩).2.2.2
      (by decide) (by decide) (by decide)⟩
